import Mathlib

/-!
Verification of the gesture-recognition and gesture-driven state-machine core
of the Handiyia smart-mirror kiosk (React/TypeScript source).

The embedding covers:
* the landmark geometry helpers of `src/components/FittingRoom.tsx`
  (`countExtendedFingers`, `isFistGesture`, `isThumbsUp`) and of `src/App.tsx`
  (`isFingerFolded` / `isFist`, pinch distance);
* the fitting-room state machine of `FittingRoom.tsx` (`reset`, `goNext`,
  `goPrev`, `startCapture`, `startGeneration`, `processLandmarks`) as a pure
  step function over an explicit state record, with wall-clock timestamps in
  milliseconds (`ℕ`) and `setTimeout`-based cooldown flags modelled as expiry
  timestamps (a flag set at time `t` with a deferred clear after `d` ms is
  active exactly on frames with `now < t + d`, since the single-threaded
  event loop runs the timer callback at `t + d`);
* the navigation swipe/fist/pinch interpreter of `App.tsx` (`hands.onResults`);
* the concurrent generation batch of `src/services/imagenService.ts`
  (`generateAllLooks` over `Promise.allSettled`), modelled as a fold of
  per-scene slot writes over an arbitrary completion order.

Landmark coordinates are rationals.  The source compares `Math.hypot` values
(Euclidean distances); since the square root is strictly monotone on
nonnegative reals, every such comparison is equivalent to the comparison of
the squared distances, which keeps the embedding executable over `ℚ`.
-/

/-- One normalized hand landmark (x, y in camera-frame coordinates).  The
detector also reports an optional depth `z`, which none of the gesture logic
reads, so it is omitted. -/
structure Landmark where
  x : ℚ
  y : ℚ
deriving DecidableEq

/-- A detected hand: 21 ordered landmarks, MediaPipe index semantics
(0 = wrist, 4 = thumb tip, 2 = thumb MCP, 8/12/16/20 = fingertips,
6/10/14/18 = PIP joints, 9 = middle-finger MCP). -/
abbrev Hand := Fin 21 → Landmark

/-- Square of `Math.hypot (a.x - b.x) (a.y - b.y)`.  All uses of `Math.hypot`
in the source only compare two such values, and comparing squares is
equivalent (square root is strictly monotone on nonnegatives). -/
def hypotSq (a b : Landmark) : ℚ := (a.x - b.x) ^ 2 + (a.y - b.y) ^ 2

/-- Fingertip landmark indices `[8, 12, 16, 20]` (`tips` in the source). -/
def fingerTipIdx : List (Fin 21) := [8, 12, 16, 20]

/-- PIP-joint landmark indices `[6, 10, 14, 18]` (`pips` in the source). -/
def fingerPipIdx : List (Fin 21) := [6, 10, 14, 18]

/-- The `FittingRoom.tsx` `countExtendedFingers`: a non-thumb finger counts as
extended iff its tip is strictly farther from the wrist than its PIP joint
(`dTip > dPip` on `Math.hypot` distances). -/
def countExtendedFingers (h : Hand) : ℕ :=
  (fingerTipIdx.zip fingerPipIdx).countP
    (fun p => decide (hypotSq (h p.1) (h 0) > hypotSq (h p.2) (h 0)))

/-- The `FittingRoom.tsx` `isFistGesture`: all 4 main fingers folded, expressed as
`countExtendedFingers lm === 0`. -/
def isFistGesture (h : Hand) : Bool := countExtendedFingers h == 0

/-- The `FittingRoom.tsx` `isThumbsUp`: thumb tip clearly above the thumb MCP
(`tip.y < mcp.y - 0.04`) and each of the 4 main fingers strictly folded
(`dTip < dPip`). -/
def isThumbsUp (h : Hand) : Bool :=
  decide ((h 4).y < (h 2).y - 4 / 100) &&
    (fingerTipIdx.zip fingerPipIdx).all
      (fun p => decide (hypotSq (h p.1) (h 0) < hypotSq (h p.2) (h 0)))

/-- The `App.tsx` `isFingerFolded`: tip strictly closer to the wrist than the PIP
joint. -/
def isFingerFolded (tip pip wrist : Landmark) : Bool :=
  decide (hypotSq tip wrist < hypotSq pip wrist)

/-- The `App.tsx` `isFist`: all four non-thumb fingers strictly folded. -/
def isFist (h : Hand) : Bool :=
  isFingerFolded (h 8) (h 6) (h 0) && isFingerFolded (h 12) (h 10) (h 0) &&
    isFingerFolded (h 16) (h 14) (h 0) && isFingerFolded (h 20) (h 18) (h 0)

/-- The `App.tsx`: `pinchDistance < 0.08`, with the Euclidean distance between
thumb tip (4) and index tip (8) compared in squared form. -/
def isPinching (h : Hand) : Bool := decide (hypotSq (h 4) (h 8) < (8 / 100) ^ 2)

/-- The `src/data/catalog.ts` `Scene`. -/
structure Scene where
  id : String
  label : String
  labelHe : String
  emoji : String
  prompt : String
deriving DecidableEq

/-- The `src/data/catalog.ts` `SCENES`: the four fixed scenes attached to every
catalog item. -/
def SCENES : List Scene :=
  [ { id := "street", label := "Street", labelHe := "רחוב", emoji := "🏙️",
      prompt := "a stylish urban street in Tel Aviv, golden hour lighting, city vibes" },
    { id := "cafe", label := "Café", labelHe := "בית קפה", emoji := "☕",
      prompt := "a cozy modern coffee shop, warm light, cappuccino on the table, relaxed atmosphere" },
    { id := "beach", label := "Beach", labelHe := "חוף הים", emoji := "🏖️",
      prompt := "a beautiful Mediterranean beach in Israel, blue sea, sunny day, white sand" },
    { id := "office", label := "Office", labelHe := "משרד", emoji := "💼",
      prompt := "a modern tech startup office, large windows, professional yet casual environment" } ]

/-- The `src/data/catalog.ts` `ClothingItem`, restricted to the fields the state
machines read: the stable identifier and the attached scene list.  The
display-only metadata (names, brand, price, colors, image URL, descriptions,
tags) never reaches the gesture or phase logic and is omitted. -/
structure ClothingItem where
  id : String
  scenes : List Scene
deriving DecidableEq

/-- The `src/data/catalog.ts` `CATALOG`: ten items, each carrying `SCENES`. -/
def CATALOG : List ClothingItem :=
  [ { id := "1", scenes := SCENES }, { id := "2", scenes := SCENES },
    { id := "3", scenes := SCENES }, { id := "4", scenes := SCENES },
    { id := "5", scenes := SCENES }, { id := "6", scenes := SCENES },
    { id := "7", scenes := SCENES }, { id := "8", scenes := SCENES },
    { id := "9", scenes := SCENES }, { id := "10", scenes := SCENES } ]

/-- Default scene used only to make list indexing total (`List.getD`); every
indexed access in the theorems is guarded by a bounds hypothesis. -/
def defaultScene : Scene :=
  { id := "", label := "", labelHe := "", emoji := "", prompt := "" }

/-- Default catalog item for total indexing (same role as `defaultScene`). -/
def defaultItem : ClothingItem := { id := "", scenes := SCENES }

/-- The `src/services/imagenService.ts` `GeneratedLook`. -/
structure GeneratedLook where
  scene : Scene
  imageBase64 : String
  isLoading : Bool
  error : Option String
deriving DecidableEq

/-- Default look for total indexing. -/
def defaultLook : GeneratedLook :=
  { scene := defaultScene, imageBase64 := "", isLoading := true, error := none }

/-- The fixed per-scene failure message written by `generateAllLooks`'s catch
branch. -/
def genErrorMsg : String := "שגיאה בייצור התמונה"

/-- The `generateAllLooks`'s initial result array: one loading slot per scene
(`{ scene, imageBase64: '', isLoading: true }`). -/
def initLooks (scenes : List Scene) : List GeneratedLook :=
  scenes.map fun s => { scene := s, imageBase64 := "", isLoading := true, error := none }

/-- The slot value `generateAllLooks` writes for scene `scene` once its
generation call settles: on success (`some img`) the data-URL with loading
cleared, on failure the fixed error message with loading cleared. -/
def settleLook (scene : Scene) (o : Option String) : GeneratedLook :=
  match o with
  | some img => { scene := scene, imageBase64 := img, isLoading := false, error := none }
  | none => { scene := scene, imageBase64 := "", isLoading := false, error := some genErrorMsg }

/-- The `src/services/imagenService.ts` `generateAllLooks`: all per-scene calls run
concurrently under `Promise.allSettled`; each completion writes only its own
slot (`results[index] = ...`).  `outcome i` is the settled result of scene
`i`'s `generateLook` call (`some` data-URL or `none` for a rejection), and
`order` is the wall-clock order in which the calls settle. -/
def generateAllLooks (scenes : List Scene) (outcome : ℕ → Option String)
    (order : List ℕ) : List GeneratedLook :=
  order.foldl
    (fun acc i => acc.set i (settleLook (scenes.getD i defaultScene) (outcome i)))
    (initLooks scenes)

/-- The `Promise.allSettled` resolution condition: the batch of `n` per-scene
calls has settled exactly when every index below `n` has completed.  (Design
note of the spec: the batch-complete check counts settled slots.) -/
def allSettled (n : ℕ) (done : List ℕ) : Prop := ∀ i, i < n → i ∈ done

/-- The `FittingRoom.tsx` `FittingRoomPhase`. -/
inductive FittingRoomPhase where
  | catalog
  | capturing
  | generating
  | results
deriving DecidableEq

/-- The `FittingRoom.tsx` `COUNTDOWN_SECONDS`. -/
def COUNTDOWN_SECONDS : ℕ := 3

/-- The `FittingRoom.tsx` `FINGER_STABLE_FRAMES`. -/
def FINGER_STABLE_FRAMES : ℕ := 8

/-- The `FittingRoom.tsx` `THUMBS_UP_FRAMES`.  The accumulator itself is an
integer (the source takes `Math.max(buffer - 1, 0)`), so the constant is
stated in `ℤ`. -/
def THUMBS_UP_FRAMES : ℤ := 10

/-- The `FittingRoom.tsx` `swipeState` (`{ startX, startTime, isTracking }`). -/
structure SwipeState where
  startX : ℚ
  startTime : ℕ
  isTracking : Bool
deriving DecidableEq

/-- The fitting-room component state: the `useState` values and the mutable
refs that `processLandmarks` reads and writes.  `setTimeout`-cleared boolean
flags (`catalogCooldown`, `postResetCooldown`) are modelled as the timestamp
at which the scheduled clear fires — the flag is active on a frame at `now`
iff `now` is strictly before the stored expiry.  `batchPending` records that a
`generateAllLooks` batch has been started and its `await` has not yet
resolved (in the source this is the in-flight promise of `startGeneration`).
The unused ref `fistStartTime` (written but never read by any logic) is
omitted. -/
structure FRState where
  phase : FittingRoomPhase
  currentIndex : ℕ
  countdown : Option ℕ
  capturedPhoto : Option String
  generatedLooks : List GeneratedLook
  selectedLookIndex : ℕ
  thumbsUpProgress : ℚ
  liveFingerCount : Option ℕ
  thumbsUpBuffer : ℤ
  fingerBuffer : List ℕ
  catalogCooldownUntil : ℕ
  postResetUntil : ℕ
  requireOpenHandAfterReset : Bool
  swipeState : SwipeState
  batchPending : Bool
deriving DecidableEq

/-- The `FittingRoom.tsx` `reset`: back to the catalog phase with all
fitting-room-local state cleared, the 500 ms post-reset lockout started and
the open-hand gate armed. -/
def reset (s : FRState) (now : ℕ) : FRState :=
  { s with
    phase := FittingRoomPhase.catalog
    capturedPhoto := none
    generatedLooks := []
    selectedLookIndex := 0
    countdown := none
    thumbsUpProgress := 0
    thumbsUpBuffer := 0
    fingerBuffer := []
    postResetUntil := now + 500
    requireOpenHandAfterReset := true }

/-- The `FittingRoom.tsx` `goNext`: advance the browse index modulo the catalog
length unless the shared catalog cooldown is active or the phase left
`catalog`; on success the cooldown is re-armed for 800 ms. -/
def goNext (s : FRState) (now : ℕ) : FRState :=
  if now < s.catalogCooldownUntil ∨ s.phase ≠ FittingRoomPhase.catalog then s
  else
    { s with
      currentIndex := (s.currentIndex + 1) % CATALOG.length
      catalogCooldownUntil := now + 800 }

/-- The `FittingRoom.tsx` `goPrev` (mirror image of `goNext`). -/
def goPrev (s : FRState) (now : ℕ) : FRState :=
  if now < s.catalogCooldownUntil ∨ s.phase ≠ FittingRoomPhase.catalog then s
  else
    { s with
      currentIndex := (s.currentIndex + CATALOG.length - 1) % CATALOG.length
      catalogCooldownUntil := now + 800 }

/-- The `FittingRoom.tsx` `startCapture`: only from `catalog`; enters `capturing`
and starts the 3-second countdown. -/
def startCapture (s : FRState) : FRState :=
  if s.phase ≠ FittingRoomPhase.catalog then s
  else
    { s with
      phase := FittingRoomPhase.capturing
      countdown := some COUNTDOWN_SECONDS }

/-- The `FittingRoom.tsx` `startGeneration`: enters `generating`, creates one
loading slot per scene of the current item and fires the generation batch
(the in-flight `await generateAllLooks ...` is recorded as `batchPending`). -/
def startGeneration (s : FRState) : FRState :=
  { s with
    phase := FittingRoomPhase.generating
    generatedLooks := initLooks (CATALOG.getD s.currentIndex defaultItem).scenes
    batchPending := true }

/-- Helper for the source pattern `...(); swipeState.current.isTracking = false`. -/
def clearTracking (s : FRState) : FRState :=
  { s with swipeState := { s.swipeState with isTracking := false } }

/-- Last `n` entries of a list — `buffer.slice(-n)` in the source. -/
def lastN (n : ℕ) (l : List ℕ) : List ℕ := l.drop (l.length - n)

/-- The non-thumbs-up arm of the `results` branch of `processLandmarks`,
factored over the computed extended-finger count: decay the thumbs-up
accumulator by one (floored at 0), and for a stable in-range count `k`
(`FINGER_STABLE_FRAMES` consecutive identical readings) differing from the
current selection, select look `k - 1`. -/
def resultsFingerStep (s : FRState) (count : ℕ) : FRState :=
  let b := max (s.thumbsUpBuffer - 1) 0
  let s1 := { s with thumbsUpBuffer := b, thumbsUpProgress := (b : ℚ) / (THUMBS_UP_FRAMES : ℚ) }
  if 1 ≤ count ∧ count ≤ 4 then
    let newBuf := lastN (FINGER_STABLE_FRAMES - 1) s1.fingerBuffer ++ [count]
    let s2 := { s1 with liveFingerCount := some count, fingerBuffer := newBuf }
    if FINGER_STABLE_FRAMES ≤ newBuf.length ∧ newBuf.all (fun c => c == count) = true ∧
        count - 1 ≠ s1.selectedLookIndex then
      { s2 with selectedLookIndex := count - 1 }
    else s2
  else { s1 with liveFingerCount := none, fingerBuffer := [] }

/-- The `results` branch of `processLandmarks` for a present hand: accumulate
thumbs-up frames (capped at `THUMBS_UP_FRAMES`; reaching the cap zeroes the
buffer and fires `reset`), otherwise run the finger-count selection step. -/
def processLandmarksResults (s : FRState) (now : ℕ) (h : Hand) : FRState :=
  if isThumbsUp h = true then
    let b := min (s.thumbsUpBuffer + 1) THUMBS_UP_FRAMES
    let s1 := { s with
      thumbsUpBuffer := b
      thumbsUpProgress := (b : ℚ) / (THUMBS_UP_FRAMES : ℚ)
      liveFingerCount := none
      fingerBuffer := [] }
    if THUMBS_UP_FRAMES ≤ b then reset { s1 with thumbsUpBuffer := 0 } now else s1
  else resultsFingerStep s (countExtendedFingers h)

/-- The gesture dispatch of the `catalog` branch once the post-reset lockout
and the open-hand gate have been passed: fist starts capture behind the
shared catalog cooldown; otherwise the windowed swipe detector runs on
landmark 9's x-coordinate. -/
def catalogGesture (s : FRState) (now : ℕ) (h : Hand) (fingerCount : ℕ) : FRState :=
  if fingerCount = 0 then
    let s2 := clearTracking s
    if now < s2.catalogCooldownUntil then s2
    else startCapture { s2 with catalogCooldownUntil := now + 1200 }
  else
    let currentX := (h 9).x
    if s.swipeState.isTracking = false then
      { s with swipeState := { startX := currentX, startTime := now, isTracking := true } }
    else
      let deltaX := currentX - s.swipeState.startX
      let elapsed := now - s.swipeState.startTime
      if elapsed < 500 then
        if deltaX < -(15 / 100 : ℚ) then clearTracking (goNext s now)
        else if deltaX > (15 / 100 : ℚ) then clearTracking (goPrev s now)
        else s
      else
        { s with swipeState := { startX := currentX, startTime := now, isTracking := true } }

/-- The `catalog` branch of `processLandmarks` for a present hand: the 500 ms
post-reset lockout returns immediately; while the open-hand gate is armed a
hand with fewer than 3 extended fingers is ignored, and a hand with 3 or more
clears the gate and continues into `catalogGesture`. -/
def processLandmarksCatalog (s : FRState) (now : ℕ) (h : Hand) : FRState :=
  if now < s.postResetUntil then s
  else
    let fingerCount := countExtendedFingers h
    if s.requireOpenHandAfterReset = true ∧ fingerCount < 3 then s
    else catalogGesture { s with requireOpenHandAfterReset := false } now h fingerCount

/-- The `FittingRoom.tsx` `processLandmarks`: the per-frame imperative gesture
handler.  `now` is `Date.now()` at the frame callback.  A missing hand aborts
swipe tracking in `catalog` and zeroes the thumbs-up accumulator and finger
buffer in `results`; frames in `capturing` and `generating` are ignored. -/
def processLandmarks (s : FRState) (now : ℕ) (lm : Option Hand) : FRState :=
  match s.phase, lm with
  | FittingRoomPhase.catalog, none => clearTracking s
  | FittingRoomPhase.catalog, some h => processLandmarksCatalog s now h
  | FittingRoomPhase.results, none =>
      { s with
        thumbsUpBuffer := 0
        fingerBuffer := []
        thumbsUpProgress := 0
        liveFingerCount := none }
  | FittingRoomPhase.results, some h => processLandmarksResults s now h
  | _, _ => s

/-- The events that mutate fitting-room state, one per call site in the
source: the per-frame landmark callback, the countdown effect (a tick for a
positive countdown, the capture-and-generate step at zero), the progressive
`onProgress` writes and the resolution of the `generateAllLooks` await, the
chevron / dot / capture / back / thumbnail UI actions (each available exactly
in the phase whose screen renders it).  Events carrying `now` are those whose
handler reads `Date.now()` or schedules a timer. -/
inductive FREvent where
  | frame (now : ℕ) (lm : Option Hand)
  | countdownTick
  | captureAtZero (photo : String)
  | progress (looks : List GeneratedLook)
  | batchSettled
  | nextClick (now : ℕ)
  | prevClick (now : ℕ)
  | dotClick (i : ℕ)
  | captureClick
  | backClick (now : ℕ)
  | thumbClick (i : ℕ)

/-- One step of the fitting-room machine.  `captureAtZero` is the countdown
effect body at `countdown === 0` (`takePhoto` success path: store the photo,
clear the countdown, run `startGeneration`); `batchSettled` is the resumption
of `startGeneration` after `await generateAllLooks ...` resolves, which can
only happen while the batch it awaits is pending. -/
def frStep (s : FRState) : FREvent → FRState
  | FREvent.frame now lm => processLandmarks s now lm
  | FREvent.countdownTick =>
      match s.countdown with
      | some (k + 1) => { s with countdown := some k }
      | _ => s
  | FREvent.captureAtZero photo =>
      match s.countdown with
      | some 0 => startGeneration { s with capturedPhoto := some photo, countdown := none }
      | _ => s
  | FREvent.progress looks =>
      if s.batchPending = true then { s with generatedLooks := looks } else s
  | FREvent.batchSettled =>
      if s.batchPending = true then
        { s with
          phase := FittingRoomPhase.results
          selectedLookIndex := 0
          batchPending := false }
      else s
  | FREvent.nextClick now => goNext s now
  | FREvent.prevClick now => goPrev s now
  | FREvent.dotClick i =>
      if s.phase = FittingRoomPhase.catalog then { s with currentIndex := i } else s
  | FREvent.captureClick => startCapture s
  | FREvent.backClick now =>
      if s.phase = FittingRoomPhase.results then reset s now else s
  | FREvent.thumbClick i =>
      if s.phase = FittingRoomPhase.results then { s with selectedLookIndex := i } else s

/-- The component's mount state (the `useState` / `useRef` initial values). -/
def frInit : FRState :=
  { phase := FittingRoomPhase.catalog
    currentIndex := 0
    countdown := none
    capturedPhoto := none
    generatedLooks := []
    selectedLookIndex := 0
    thumbsUpProgress := 0
    liveFingerCount := none
    thumbsUpBuffer := 0
    fingerBuffer := []
    catalogCooldownUntil := 0
    postResetUntil := 0
    requireOpenHandAfterReset := false
    swipeState := { startX := 0, startTime := 0, isTracking := false }
    batchPending := false }

/-- States of the fitting-room machine reachable from mount. -/
inductive FRReachable : FRState → Prop where
  | init : FRReachable frInit
  | step {s : FRState} (e : FREvent) : FRReachable s → FRReachable (frStep s e)

/-- The `App.tsx`: number of top-level widgets (`widgets.length`; index 5 is the
fitting room). -/
def WIDGET_COUNT : ℕ := 6

/-- The navigation-side state of `App.tsx` that the `hands.onResults` gesture
interpreter reads and writes: the active-widget index, the camera-preview and
music toggles, the single shared cooldown flag (modelled as its
`setTimeout`-clear timestamp, as for the fitting room) and the swipe tracker
`gestureState`.  The source's `lastX` field of `gestureState` is written but
never read, so it is omitted. -/
structure NavState where
  activeWidget : ℕ
  showCamera : Bool
  isPlaying : Bool
  cooldownUntil : ℕ
  gestureState : SwipeState
deriving DecidableEq

/-- The `App.tsx` `triggerCooldown`: arm the shared navigation cooldown for
1200 ms (the status message is display-only). -/
def triggerCooldown (s : NavState) (now : ℕ) : NavState :=
  { s with cooldownUntil := now + 1200 }

/-- The `App.tsx` `nextWidget`. -/
def nextWidget (s : NavState) (now : ℕ) : NavState :=
  if now < s.cooldownUntil then s
  else triggerCooldown { s with activeWidget := (s.activeWidget + 1) % WIDGET_COUNT } now

/-- The `App.tsx` `prevWidget`. -/
def prevWidget (s : NavState) (now : ℕ) : NavState :=
  if now < s.cooldownUntil then s
  else
    triggerCooldown
      { s with activeWidget := (s.activeWidget + WIDGET_COUNT - 1) % WIDGET_COUNT } now

/-- The `App.tsx` `handlePinch`: toggle the camera preview behind the shared
cooldown. -/
def handlePinch (s : NavState) (now : ℕ) : NavState :=
  if now < s.cooldownUntil then s
  else triggerCooldown { s with showCamera := !s.showCamera } now

/-- The `App.tsx` `handleFist`: toggle music playback behind the shared
cooldown. -/
def handleFist (s : NavState) (now : ℕ) : NavState :=
  if now < s.cooldownUntil then s
  else triggerCooldown { s with isPlaying := !s.isPlaying } now

/-- Abandon the navigation swipe tracker
(`gestureState.current.isTracking = false`). -/
def navClearTracking (s : NavState) : NavState :=
  { s with gestureState := { s.gestureState with isTracking := false } }

/-- The `App.tsx` `hands.onResults`, standard gesture processing for the
non-fitting-room widgets: pinch and fist pre-empt and abandon swipe tracking;
otherwise the windowed swipe detector runs on landmark 9's x-coordinate with
threshold 0.15 and a 500 ms window.  On window expiry this interpreter merely
stops tracking (`isTracking = false`); a fresh window starts on the next hand
frame at that frame's position.  A frame with no hand stops tracking. -/
def navProcessFrame (s : NavState) (now : ℕ) (lm : Option Hand) : NavState :=
  match lm with
  | none => navClearTracking s
  | some h =>
    if isPinching h = true then navClearTracking (handlePinch s now)
    else if isFist h = true then navClearTracking (handleFist s now)
    else
      let currentX := (h 9).x
      if s.gestureState.isTracking = false then
        { s with gestureState := { startX := currentX, startTime := now, isTracking := true } }
      else
        let deltaX := currentX - s.gestureState.startX
        let timeElapsed := now - s.gestureState.startTime
        if timeElapsed < 500 then
          if deltaX < -(15 / 100 : ℚ) then navClearTracking (nextWidget s now)
          else if deltaX > (15 / 100 : ℚ) then navClearTracking (prevWidget s now)
          else s
        else navClearTracking s

section BatchLemmas

/-- Folding slot writes preserves the result-array length (the slot array is
fixed-size once created for a capture). -/
lemma foldl_set_length (f : ℕ → GeneratedLook) (order : List ℕ) :
    ∀ init : List GeneratedLook,
      (order.foldl (fun acc i => acc.set i (f i)) init).length = init.length := by
  induction order with
  | nil => intro init; rfl
  | cons j rest ih =>
    intro init
    simp only [List.foldl_cons]
    rw [ih]
    exact List.length_set ..

/-- Slots whose index never settles keep their initial value. -/
lemma foldl_set_getElem?_of_not_mem (f : ℕ → GeneratedLook) (order : List ℕ) :
    ∀ init : List GeneratedLook, ∀ i : ℕ, i ∉ order →
      (order.foldl (fun acc j => acc.set j (f j)) init)[i]? = init[i]? := by
  induction order with
  | nil => intro init i _; rfl
  | cons j rest ih =>
    intro init i hi
    simp only [List.foldl_cons]
    rw [ih _ i (fun h => hi (List.mem_cons_of_mem _ h))]
    have hji : j ≠ i := by
      intro h
      subst h
      exact hi (List.mem_cons_self _ _)
    exact List.getElem?_set_ne hji

/-- Each settled index ends up holding exactly its own settled value,
independent of every other completion: the write for slot `i` is the same
whenever it happens, and no other write touches slot `i`. -/
lemma foldl_set_getElem?_of_mem (f : ℕ → GeneratedLook) (order : List ℕ) :
    ∀ init : List GeneratedLook, ∀ i : ℕ, i ∈ order → i < init.length →
      (order.foldl (fun acc j => acc.set j (f j)) init)[i]? = some (f i) := by
  induction order with
  | nil => intro init i hi; exact absurd hi (List.not_mem_nil i)
  | cons j rest ih =>
    intro init i hi hlen
    simp only [List.foldl_cons]
    by_cases hrest : i ∈ rest
    · exact ih _ i hrest (by rw [List.length_set]; exact hlen)
    · have hij : i = j := by
        rcases List.mem_cons.mp hi with h | h
        · exact h
        · exact absurd h hrest
      subst hij
      rw [foldl_set_getElem?_of_not_mem f rest _ i hrest]
      exact List.getElem?_set_eq_of_lt _ hlen

/-- A strict prefix of a completion order that is a permutation of the scene
indices is missing at least one scene: the batch is not yet settled. -/
lemma prefix_not_allSettled {n : ℕ} {order p : List ℕ}
    (hperm : order.Perm (List.range n)) (hp : p <+: order) (hne : p ≠ order) :
    ¬ allSettled n p := by
  intro hall
  have hsub : List.range n ⊆ p := fun i hi => hall i (List.mem_range.mp hi)
  have hlen : n ≤ p.length := by
    have := ((List.nodup_range n).subperm hsub).length_le
    simpa using this
  have hlt : p.length < order.length := by
    rcases lt_or_eq_of_le hp.length_le with h | h
    · exact h
    · exact absurd (hp.eq_of_length h) hne
  rw [hperm.length_eq, List.length_range] at hlt
  omega

end BatchLemmas

/-- Length of the initial loading array equals the scene count. -/
lemma initLooks_length (scenes : List Scene) : (initLooks scenes).length = scenes.length := by
  simp [initLooks]

/-- Claim C1: For every generation batch, the machine leaves `generating` for
`results` only once every per-scene call has settled (no strict prefix of the
completion order covers all scenes, and the `batchSettled` resumption enters
`results` with selected-look-index 0); in the final result set every slot has
`isLoading = false` and holds its own scene's settled outcome (image on
success, error message on failure), the length equals the scene count, and
each slot's value depends only on its own outcome — in particular one scene's
failure does not abort or alter the others — for every completion order. -/
theorem generateAllLooks_batch_settles
    (scenes : List Scene) (outcome : ℕ → Option String) (order : List ℕ)
    (hperm : order.Perm (List.range scenes.length)) :
    (generateAllLooks scenes outcome order).length = scenes.length ∧
    (∀ i, i < scenes.length →
      (generateAllLooks scenes outcome order).getD i defaultLook
        = settleLook (scenes.getD i defaultScene) (outcome i)) ∧
    (∀ i, i < scenes.length →
      ((generateAllLooks scenes outcome order).getD i defaultLook).isLoading = false ∧
      (((generateAllLooks scenes outcome order).getD i defaultLook).error = none ↔
        (outcome i).isSome = true)) ∧
    (∀ p, p <+: order → p ≠ order → ¬ allSettled scenes.length p) ∧
    allSettled scenes.length order ∧
    (∀ s : FRState, s.batchPending = true →
      (frStep s FREvent.batchSettled).phase = FittingRoomPhase.results ∧
      (frStep s FREvent.batchSettled).selectedLookIndex = 0) := by
  have hpoint : ∀ i, i < scenes.length →
      (generateAllLooks scenes outcome order).getD i defaultLook
        = settleLook (scenes.getD i defaultScene) (outcome i) := by
    intro i hi
    have hmem : i ∈ order := hperm.mem_iff.mpr (List.mem_range.mpr hi)
    have hlen : i < (initLooks scenes).length := by rw [initLooks_length]; exact hi
    have := foldl_set_getElem?_of_mem
      (fun j => settleLook (scenes.getD j defaultScene) (outcome j)) order
      (initLooks scenes) i hmem hlen
    unfold generateAllLooks
    rw [List.getD_eq_getElem?_getD, this]
    rfl
  refine ⟨?_, hpoint, ?_, ?_, ?_, ?_⟩
  · unfold generateAllLooks
    rw [foldl_set_length, initLooks_length]
  · intro i hi
    rw [hpoint i hi]
    cases houtcome : outcome i <;> simp [settleLook]
  · intro p hp hne
    exact prefix_not_allSettled hperm hp hne
  · intro i hi
    exact hperm.mem_iff.mpr (List.mem_range.mpr hi)
  · intro s hs
    simp [frStep, hs]

/-- Witness for C1 at the spec's own test case: four scenes, scene 2
(index 1) fails, the others succeed, and scene 3 settles before scene 1
(completion order `[2, 0, 3, 1]`). -/
theorem generateAllLooks_batch_settles_witness :
    ([2, 0, 3, 1] : List ℕ).Perm (List.range SCENES.length) ∧
    (∀ i, i < SCENES.length →
      (generateAllLooks SCENES (fun j => if j = 1 then none else some "data:demo")
          [2, 0, 3, 1]).getD i defaultLook
        = settleLook (SCENES.getD i defaultScene)
            (if i = 1 then none else some "data:demo")) :=
  ⟨by decide,
    (generateAllLooks_batch_settles SCENES
      (fun j => if j = 1 then none else some "data:demo") [2, 0, 3, 1] (by decide)).2.1⟩

section PhaseLemmas

/-- Branch equation: a no-hand frame in `catalog` only aborts swipe tracking. -/
lemma processLandmarks_catalog_none (s : FRState) (now : ℕ)
    (hphase : s.phase = FittingRoomPhase.catalog) :
    processLandmarks s now none = clearTracking s := by
  unfold processLandmarks
  rw [hphase]

/-- Branch equation: a hand frame in `catalog` runs the catalog branch. -/
lemma processLandmarks_catalog_some (s : FRState) (now : ℕ) (h : Hand)
    (hphase : s.phase = FittingRoomPhase.catalog) :
    processLandmarks s now (some h) = processLandmarksCatalog s now h := by
  unfold processLandmarks
  rw [hphase]

/-- Branch equation: a no-hand frame in `results` zeroes the thumbs-up
accumulator and the finger buffer. -/
lemma processLandmarks_results_none (s : FRState) (now : ℕ)
    (hphase : s.phase = FittingRoomPhase.results) :
    processLandmarks s now none
      = { s with
          thumbsUpBuffer := 0
          fingerBuffer := []
          thumbsUpProgress := 0
          liveFingerCount := none } := by
  unfold processLandmarks
  rw [hphase]

/-- Branch equation: a hand frame in `results` runs the results branch. -/
lemma processLandmarks_results_some (s : FRState) (now : ℕ) (h : Hand)
    (hphase : s.phase = FittingRoomPhase.results) :
    processLandmarks s now (some h) = processLandmarksResults s now h := by
  unfold processLandmarks
  rw [hphase]

/-- Frames in `capturing` or `generating` are ignored by `processLandmarks`. -/
lemma processLandmarks_inactive (s : FRState) (now : ℕ) (lm : Option Hand)
    (hphase : s.phase = FittingRoomPhase.capturing ∨ s.phase = FittingRoomPhase.generating) :
    processLandmarks s now lm = s := by
  unfold processLandmarks
  rcases hphase with h | h <;> rw [h]

/-- The `goNext` never changes the phase, the countdown or the pending batch. -/
lemma goNext_core (s : FRState) (now : ℕ) :
    (goNext s now).phase = s.phase ∧ (goNext s now).countdown = s.countdown ∧
      (goNext s now).batchPending = s.batchPending := by
  unfold goNext
  split <;> simp

/-- The `goPrev` never changes the phase, the countdown or the pending batch. -/
lemma goPrev_core (s : FRState) (now : ℕ) :
    (goPrev s now).phase = s.phase ∧ (goPrev s now).countdown = s.countdown ∧
      (goPrev s now).batchPending = s.batchPending := by
  unfold goPrev
  split <;> simp

/-- The `resultsFingerStep` touches only the accumulator, the buffer, the live
count and the selection. -/
lemma resultsFingerStep_core (s : FRState) (count : ℕ) :
    (resultsFingerStep s count).phase = s.phase ∧
      (resultsFingerStep s count).countdown = s.countdown ∧
      (resultsFingerStep s count).batchPending = s.batchPending := by
  unfold resultsFingerStep
  dsimp only
  split
  · split <;> simp
  · simp

/-- Shape of the `results` branch: either the phase and countdown are kept,
or the thumbs-up hold fired `reset` and the machine is back in `catalog` with
no countdown.  The pending batch is never touched. -/
lemma processLandmarksResults_shape (s : FRState) (now : ℕ) (h : Hand) :
    (processLandmarksResults s now h).batchPending = s.batchPending ∧
      (((processLandmarksResults s now h).phase = s.phase ∧
        (processLandmarksResults s now h).countdown = s.countdown) ∨
       ((processLandmarksResults s now h).phase = FittingRoomPhase.catalog ∧
        (processLandmarksResults s now h).countdown = none)) := by
  unfold processLandmarksResults
  dsimp only
  split
  · split
    · simp [reset]
    · simp
  · have := resultsFingerStep_core s (countExtendedFingers h)
    exact ⟨this.2.2, Or.inl ⟨this.1, this.2.1⟩⟩

/-- Shape of the `catalog` gesture dispatch: either the phase and countdown
are kept, or a fist started capture and the machine is in `capturing` with a
fresh 3-second countdown.  The pending batch is never touched. -/
lemma catalogGesture_shape (s : FRState) (now : ℕ) (h : Hand) (fingerCount : ℕ)
    (hphase : s.phase = FittingRoomPhase.catalog) :
    (catalogGesture s now h fingerCount).batchPending = s.batchPending ∧
      (((catalogGesture s now h fingerCount).phase = s.phase ∧
        (catalogGesture s now h fingerCount).countdown = s.countdown) ∨
       ((catalogGesture s now h fingerCount).phase = FittingRoomPhase.capturing ∧
        (catalogGesture s now h fingerCount).countdown = some COUNTDOWN_SECONDS)) := by
  unfold catalogGesture
  dsimp only
  split
  · split
    · simp [clearTracking]
    · simp [startCapture, clearTracking, hphase]
  · split
    · simp
    · split
      · split
        · have := goNext_core s now
          simp [clearTracking, this.1, this.2.1, this.2.2]
        · split
          · have := goPrev_core s now
            simp [clearTracking, this.1, this.2.1, this.2.2]
          · simp
      · simp

/-- Shape of a whole frame step: the pending batch is untouched, and the
phase either stays, moves `catalog → capturing` (fist capture, countdown
armed) or moves `results → catalog` (thumbs-up `reset`, countdown cleared). -/
lemma processLandmarks_shape (s : FRState) (now : ℕ) (lm : Option Hand) :
    (processLandmarks s now lm).batchPending = s.batchPending ∧
      (((processLandmarks s now lm).phase = s.phase ∧
        (processLandmarks s now lm).countdown = s.countdown) ∨
       (s.phase = FittingRoomPhase.catalog ∧
        (processLandmarks s now lm).phase = FittingRoomPhase.capturing ∧
        (processLandmarks s now lm).countdown = some COUNTDOWN_SECONDS) ∨
       (s.phase = FittingRoomPhase.results ∧
        (processLandmarks s now lm).phase = FittingRoomPhase.catalog ∧
        (processLandmarks s now lm).countdown = none)) := by
  cases hphase : s.phase with
  | catalog =>
    cases lm with
    | none =>
      rw [processLandmarks_catalog_none s now hphase]
      simp [clearTracking, hphase]
    | some h =>
      rw [processLandmarks_catalog_some s now h hphase]
      unfold processLandmarksCatalog
      dsimp only
      split
      · simp [hphase]
      · split
        · simp [hphase]
        · have hg : ({ s with requireOpenHandAfterReset := false } : FRState).phase
              = FittingRoomPhase.catalog := hphase
          have := catalogGesture_shape { s with requireOpenHandAfterReset := false }
            now h (countExtendedFingers h) hg
          refine ⟨this.1, ?_⟩
          rcases this.2 with ⟨h1, h2⟩ | ⟨h1, h2⟩
          · exact Or.inl ⟨h1.trans hg, h2⟩
          · exact Or.inr (Or.inl ⟨rfl, h1, h2⟩)
  | capturing =>
    rw [processLandmarks_inactive s now lm (Or.inl hphase)]
    simp [hphase]
  | generating =>
    rw [processLandmarks_inactive s now lm (Or.inr hphase)]
    simp [hphase]
  | results =>
    cases lm with
    | none =>
      rw [processLandmarks_results_none s now hphase]
      simp [hphase]
    | some h =>
      rw [processLandmarks_results_some s now h hphase]
      have := processLandmarksResults_shape s now h
      refine ⟨this.1, ?_⟩
      rcases this.2 with ⟨h1, h2⟩ | ⟨h1, h2⟩
      · exact Or.inl ⟨h1.trans hphase, h2⟩
      · exact Or.inr (Or.inr ⟨rfl, h1, h2⟩)

end PhaseLemmas

/-- Inductive invariant of the fitting-room machine: a running countdown only
exists in `capturing`, and an in-flight generation batch only exists in
`generating`. -/
def FRInv (s : FRState) : Prop :=
  (s.countdown ≠ none → s.phase = FittingRoomPhase.capturing) ∧
    (s.batchPending = true → s.phase = FittingRoomPhase.generating)

lemma frInv_init : FRInv frInit := by
  constructor <;> intro h <;> simp [frInit] at h

/-- Transfer of the invariant along steps that keep the phase, the countdown
and the pending batch. -/
lemma FRInv_of_core {s t : FRState} (hInv : FRInv s) (h1 : t.phase = s.phase)
    (h2 : t.countdown = s.countdown) (h3 : t.batchPending = s.batchPending) :
    FRInv t := by
  obtain ⟨hc, hb⟩ := hInv
  exact ⟨fun hne => h1.trans (hc (by rwa [h2] at hne)),
    fun hp => h1.trans (hb (by rwa [h3] at hp))⟩

/-- The invariant is preserved by every event. -/
lemma frStep_inv (s : FRState) (e : FREvent) (hInv : FRInv s) : FRInv (frStep s e) := by
  obtain ⟨hc, hb⟩ := hInv
  cases e with
  | frame now lm =>
    show FRInv (processLandmarks s now lm)
    obtain ⟨hbp, hsh⟩ := processLandmarks_shape s now lm
    rcases hsh with ⟨h1, h2⟩ | ⟨h0, h1, h2⟩ | ⟨h0, h1, h2⟩
    · exact FRInv_of_core ⟨hc, hb⟩ h1 h2 hbp
    · refine ⟨fun _ => h1, fun hp => ?_⟩
      have := hb (hbp.symm.trans hp)
      rw [h0] at this
      cases this
    · refine ⟨fun hne => absurd h2 hne, fun hp => ?_⟩
      have := hb (hbp.symm.trans hp)
      rw [h0] at this
      cases this
  | countdownTick =>
    cases hcd : s.countdown with
    | none =>
      simp only [frStep, hcd]
      exact ⟨hc, hb⟩
    | some k =>
      cases k with
      | zero =>
        simp only [frStep, hcd]
        exact ⟨hc, hb⟩
      | succ m =>
        simp only [frStep, hcd]
        exact ⟨fun _ => hc (by simp [hcd]), fun hp => hb hp⟩
  | captureAtZero photo =>
    cases hcd : s.countdown with
    | none =>
      simp only [frStep, hcd]
      exact ⟨hc, hb⟩
    | some k =>
      cases k with
      | zero =>
        simp only [frStep, hcd]
        exact ⟨fun hne => absurd rfl hne, fun _ => rfl⟩
      | succ m =>
        simp only [frStep, hcd]
        exact ⟨hc, hb⟩
  | progress looks =>
    by_cases hp : s.batchPending = true
    · simp only [frStep, if_pos hp]
      exact FRInv_of_core ⟨hc, hb⟩ rfl rfl rfl
    · simp only [frStep, if_neg hp]
      exact ⟨hc, hb⟩
  | batchSettled =>
    by_cases hp : s.batchPending = true
    · simp only [frStep, if_pos hp]
      exact ⟨fun hne => FittingRoomPhase.noConfusion ((hc hne).symm.trans (hb hp)),
        fun hp2 => Bool.noConfusion hp2⟩
    · simp only [frStep, if_neg hp]
      exact ⟨hc, hb⟩
  | nextClick now =>
    obtain ⟨h1, h2, h3⟩ := goNext_core s now
    exact FRInv_of_core ⟨hc, hb⟩ h1 h2 h3
  | prevClick now =>
    obtain ⟨h1, h2, h3⟩ := goPrev_core s now
    exact FRInv_of_core ⟨hc, hb⟩ h1 h2 h3
  | dotClick i =>
    by_cases hcat : s.phase = FittingRoomPhase.catalog
    · simp only [frStep, if_pos hcat]
      exact FRInv_of_core ⟨hc, hb⟩ rfl rfl rfl
    · simp only [frStep, if_neg hcat]
      exact ⟨hc, hb⟩
  | captureClick =>
    show FRInv (startCapture s)
    unfold startCapture
    split
    · exact ⟨hc, hb⟩
    · rename_i hcat
      exact ⟨fun _ => rfl,
        fun hp => FittingRoomPhase.noConfusion ((not_not.mp hcat).symm.trans (hb hp))⟩
  | backClick now =>
    by_cases hres : s.phase = FittingRoomPhase.results
    · simp only [frStep, if_pos hres]
      exact ⟨fun hne => absurd rfl hne,
        fun hp => FittingRoomPhase.noConfusion (hres.symm.trans (hb hp))⟩
    · simp only [frStep, if_neg hres]
      exact ⟨hc, hb⟩
  | thumbClick i =>
    by_cases hres : s.phase = FittingRoomPhase.results
    · simp only [frStep, if_pos hres]
      exact FRInv_of_core ⟨hc, hb⟩ rfl rfl rfl
    · simp only [frStep, if_neg hres]
      exact ⟨hc, hb⟩

/-- Every reachable state satisfies the invariant. -/
lemma frReachable_inv {s : FRState} (hs : FRReachable s) : FRInv s := by
  induction hs with
  | init => exact frInv_init
  | step e _ ih => exact frStep_inv _ e ih

/-- Claim C2: In every reachable state of the fitting-room machine the phase is
one of `catalog`, `capturing`, `generating`, `results`, and every event
either keeps the phase or follows one of the four edges of the flow:
`catalog → capturing` (`startCapture`, from the fist gesture or the capture
button), `capturing → generating` (the countdown-zero photo capture),
`generating → results` (the generation batch settling) and
`results → catalog` (`reset`, from the thumbs-up hold or the back button).
No other phase edge ever occurs. -/
theorem fittingRoom_phase_edges (s : FRState) (hs : FRReachable s) (e : FREvent) :
    (s.phase = FittingRoomPhase.catalog ∨ s.phase = FittingRoomPhase.capturing ∨
      s.phase = FittingRoomPhase.generating ∨ s.phase = FittingRoomPhase.results) ∧
    ((frStep s e).phase = s.phase ∨
      (s.phase = FittingRoomPhase.catalog ∧
        (frStep s e).phase = FittingRoomPhase.capturing) ∨
      (s.phase = FittingRoomPhase.capturing ∧
        (frStep s e).phase = FittingRoomPhase.generating) ∨
      (s.phase = FittingRoomPhase.generating ∧
        (frStep s e).phase = FittingRoomPhase.results) ∨
      (s.phase = FittingRoomPhase.results ∧
        (frStep s e).phase = FittingRoomPhase.catalog)) := by
  obtain ⟨hc, hb⟩ := frReachable_inv hs
  constructor
  · cases s.phase <;> simp
  · cases e with
    | frame now lm =>
      obtain ⟨_, hsh⟩ := processLandmarks_shape s now lm
      rcases hsh with ⟨h1, _⟩ | ⟨h0, h1, _⟩ | ⟨h0, h1, _⟩
      · exact Or.inl h1
      · exact Or.inr (Or.inl ⟨h0, h1⟩)
      · exact Or.inr (Or.inr (Or.inr (Or.inr ⟨h0, h1⟩)))
    | countdownTick =>
      cases hcd : s.countdown with
      | none => exact Or.inl (by simp [frStep, hcd])
      | some k =>
        cases k with
        | zero => exact Or.inl (by simp [frStep, hcd])
        | succ m => exact Or.inl (by simp [frStep, hcd])
    | captureAtZero photo =>
      cases hcd : s.countdown with
      | none => exact Or.inl (by simp [frStep, hcd])
      | some k =>
        cases k with
        | zero =>
          refine Or.inr (Or.inr (Or.inl ⟨hc (by simp [hcd]), ?_⟩))
          simp [frStep, hcd, startGeneration]
        | succ m => exact Or.inl (by simp [frStep, hcd])
    | progress looks =>
      by_cases hp : s.batchPending = true
      · exact Or.inl (by simp [frStep, hp])
      · exact Or.inl (by simp [frStep, hp])
    | batchSettled =>
      by_cases hp : s.batchPending = true
      · refine Or.inr (Or.inr (Or.inr (Or.inl ⟨hb hp, ?_⟩)))
        simp [frStep, hp]
      · exact Or.inl (by simp [frStep, hp])
    | nextClick now => exact Or.inl (goNext_core s now).1
    | prevClick now => exact Or.inl (goPrev_core s now).1
    | dotClick i =>
      by_cases hcat : s.phase = FittingRoomPhase.catalog
      · exact Or.inl (by simp [frStep, hcat])
      · exact Or.inl (by simp [frStep, hcat])
    | captureClick =>
      have hstep : frStep s FREvent.captureClick = startCapture s := rfl
      by_cases hcat : s.phase = FittingRoomPhase.catalog
      · refine Or.inr (Or.inl ⟨hcat, ?_⟩)
        rw [hstep]
        unfold startCapture
        rw [if_neg (by simp [hcat])]
      · refine Or.inl ?_
        rw [hstep]
        unfold startCapture
        rw [if_pos hcat]
    | backClick now =>
      by_cases hres : s.phase = FittingRoomPhase.results
      · refine Or.inr (Or.inr (Or.inr (Or.inr ⟨hres, ?_⟩)))
        simp [frStep, hres, reset]
      · exact Or.inl (by simp [frStep, hres])
    | thumbClick i =>
      by_cases hres : s.phase = FittingRoomPhase.results
      · exact Or.inl (by simp [frStep, hres])
      · exact Or.inl (by simp [frStep, hres])

/-- Witness for C2 at the mount state and a countdown-tick event. -/
theorem fittingRoom_phase_edges_witness :
    (frInit.phase = FittingRoomPhase.catalog ∨ frInit.phase = FittingRoomPhase.capturing ∨
      frInit.phase = FittingRoomPhase.generating ∨ frInit.phase = FittingRoomPhase.results) ∧
    ((frStep frInit FREvent.countdownTick).phase = frInit.phase ∨
      (frInit.phase = FittingRoomPhase.catalog ∧
        (frStep frInit FREvent.countdownTick).phase = FittingRoomPhase.capturing) ∨
      (frInit.phase = FittingRoomPhase.capturing ∧
        (frStep frInit FREvent.countdownTick).phase = FittingRoomPhase.generating) ∨
      (frInit.phase = FittingRoomPhase.generating ∧
        (frStep frInit FREvent.countdownTick).phase = FittingRoomPhase.results) ∨
      (frInit.phase = FittingRoomPhase.results ∧
        (frStep frInit FREvent.countdownTick).phase = FittingRoomPhase.catalog)) :=
  fittingRoom_phase_edges frInit FRReachable.init FREvent.countdownTick

/-- The all-zero degenerate hand: every landmark at the origin.  All
tip/wrist and PIP/wrist distances are 0, so no finger is strictly extended
and no finger is strictly folded. -/
def zeroHand : Hand := fun _ => { x := 0, y := 0 }

/-- The all-zero hand has no strictly-extended finger. -/
lemma countExtendedFingers_zeroHand : countExtendedFingers zeroHand = 0 := by
  norm_num [countExtendedFingers, fingerTipIdx, fingerPipIdx, hypotSq, zeroHand,
    List.countP, List.countP.go]

/-- If the open-hand gate is already clear, clearing it again is the
identity. -/
lemma setGateFalse_eq (s : FRState) (hgate : s.requireOpenHandAfterReset = false) :
    ({ s with requireOpenHandAfterReset := false } : FRState) = s := by
  cases s
  simp_all

/-- Claim C6: After any `reset()` the machine is in `catalog` with
selected-look-index 0, an empty generated-look set, no countdown, zeroed
thumbs-up accumulator, progress ring and finger-stability buffer, the 500 ms
post-reset lockout armed, and the open-hand gate armed: any later catalog
frame whose hand shows fewer than 3 extended fingers — in particular any
fist — changes nothing at all, so a fist cannot trigger capture until a hand
with at least 3 extended fingers has been seen. -/
theorem reset_restores_catalog (s : FRState) (now : ℕ) :
    (reset s now).phase = FittingRoomPhase.catalog ∧
    (reset s now).selectedLookIndex = 0 ∧
    (reset s now).generatedLooks = [] ∧
    (reset s now).countdown = none ∧
    (reset s now).thumbsUpBuffer = 0 ∧
    (reset s now).thumbsUpProgress = 0 ∧
    (reset s now).fingerBuffer = [] ∧
    (reset s now).requireOpenHandAfterReset = true ∧
    (reset s now).postResetUntil = now + 500 ∧
    (∀ (now2 : ℕ) (h : Hand), countExtendedFingers h < 3 →
      processLandmarks (reset s now) now2 (some h) = reset s now) := by
  refine ⟨rfl, rfl, rfl, rfl, rfl, rfl, rfl, rfl, rfl, ?_⟩
  intro now2 h hlow
  rw [processLandmarks_catalog_some _ _ _ rfl]
  unfold processLandmarksCatalog
  dsimp only
  by_cases ht : now2 < (reset s now).postResetUntil
  · rw [if_pos ht]
  · rw [if_neg ht, if_pos ⟨rfl, hlow⟩]

/-- Witness for C6: reset at time 0, then a fist frame (the all-zero hand,
extended-finger count 0) at time 600 — after the lockout — is ignored. -/
theorem reset_restores_catalog_witness :
    (reset frInit 0).phase = FittingRoomPhase.catalog ∧
    (reset frInit 0).selectedLookIndex = 0 ∧
    countExtendedFingers zeroHand < 3 ∧
    processLandmarks (reset frInit 0) 600 (some zeroHand) = reset frInit 0 :=
  ⟨(reset_restores_catalog frInit 0).1,
    (reset_restores_catalog frInit 0).2.1,
    by norm_num [countExtendedFingers_zeroHand],
    (reset_restores_catalog frInit 0).2.2.2.2.2.2.2.2.2 600 zeroHand
      (by norm_num [countExtendedFingers_zeroHand])⟩

/-- The `goNext` does not touch the open-hand gate. -/
lemma goNext_gate (s : FRState) (now : ℕ) :
    (goNext s now).requireOpenHandAfterReset = s.requireOpenHandAfterReset := by
  unfold goNext
  split <;> simp

/-- The `goPrev` does not touch the open-hand gate. -/
lemma goPrev_gate (s : FRState) (now : ℕ) :
    (goPrev s now).requireOpenHandAfterReset = s.requireOpenHandAfterReset := by
  unfold goPrev
  split <;> simp

/-- The `startCapture` does not touch the open-hand gate. -/
lemma startCapture_gate (s : FRState) :
    (startCapture s).requireOpenHandAfterReset = s.requireOpenHandAfterReset := by
  unfold startCapture
  split <;> simp

/-- The catalog gesture dispatch does not touch the open-hand gate. -/
lemma catalogGesture_gate (s : FRState) (now : ℕ) (h : Hand) (fc : ℕ) :
    (catalogGesture s now h fc).requireOpenHandAfterReset
      = s.requireOpenHandAfterReset := by
  unfold catalogGesture
  dsimp only
  split
  · split
    · simp [clearTracking]
    · rw [startCapture_gate]
      simp [clearTracking]
  · split
    · simp
    · split
      · split
        · simp [clearTracking, goNext_gate]
        · split
          · simp [clearTracking, goPrev_gate]
          · simp
      · simp

/-- Claim C10: While the post-reset open-hand gate is armed, a catalog frame
whose extended-finger count is below 3 produces no event and no state change
at all — no swipe, no capture, no swipe-tracking progress; a frame with at
least 3 extended fingers (once the 500 ms lockout has passed) clears the
gate, and only such a frame does. -/
theorem open_hand_gate_blocks (s : FRState) (now : ℕ) (h : Hand)
    (hphase : s.phase = FittingRoomPhase.catalog)
    (hgate : s.requireOpenHandAfterReset = true) :
    (countExtendedFingers h < 3 → processLandmarks s now (some h) = s) ∧
    (3 ≤ countExtendedFingers h → ¬ now < s.postResetUntil →
      (processLandmarks s now (some h)).requireOpenHandAfterReset = false) := by
  constructor
  · intro hlow
    rw [processLandmarks_catalog_some _ _ _ hphase]
    unfold processLandmarksCatalog
    dsimp only
    by_cases ht : now < s.postResetUntil
    · rw [if_pos ht]
    · rw [if_neg ht, if_pos ⟨hgate, hlow⟩]
  · intro hhigh ht
    rw [processLandmarks_catalog_some _ _ _ hphase]
    unfold processLandmarksCatalog
    dsimp only
    rw [if_neg ht, if_neg (by omega), catalogGesture_gate]

/-- Witness for C10: in a post-reset catalog state (gate armed, lockout
expired), a fist frame (all-zero hand) at time 600 changes nothing. -/
theorem open_hand_gate_blocks_witness :
    ({ frInit with requireOpenHandAfterReset := true } : FRState).phase
        = FittingRoomPhase.catalog ∧
    ({ frInit with requireOpenHandAfterReset := true } : FRState).requireOpenHandAfterReset
        = true ∧
    countExtendedFingers zeroHand < 3 ∧
    processLandmarks { frInit with requireOpenHandAfterReset := true } 600 (some zeroHand)
      = { frInit with requireOpenHandAfterReset := true } :=
  ⟨rfl, rfl, by norm_num [countExtendedFingers_zeroHand],
    (open_hand_gate_blocks { frInit with requireOpenHandAfterReset := true } 600 zeroHand
      rfl rfl).1 (by norm_num [countExtendedFingers_zeroHand])⟩

/-- A concrete open hand (all four fingers extended) whose tracked reference
point (landmark 9) sits at abscissa `x`. -/
def swipeHand (x : ℚ) : Hand := fun i =>
  if i.val = 9 then { x := x, y := 1/2 }
  else if i.val = 8 ∨ i.val = 12 ∨ i.val = 16 ∨ i.val = 20 then { x := 1/2, y := 0 }
  else if i.val = 6 ∨ i.val = 10 ∨ i.val = 14 ∨ i.val = 18 then { x := 1/2, y := 2/5 }
  else { x := 1/2, y := 1/2 }

/-- The `swipeHand` has all four fingers extended. -/
lemma countExtendedFingers_swipeHand (x : ℚ) : countExtendedFingers (swipeHand x) = 4 := by
  norm_num +decide [countExtendedFingers, fingerTipIdx, fingerPipIdx, hypotSq, swipeHand,
    List.countP, List.countP.go]

/-- Landmark 9 of `swipeHand x` is at abscissa `x`. -/
lemma swipeHand_nine (x : ℚ) : swipeHand x 9 = { x := x, y := 1/2 } := rfl

/-- Claim C9: In the catalog phase, swipe navigation and fist capture share the
single `catalogCooldown` flag rather than per-channel gates: a fired swipe
re-arms it for 800 ms and a fist-triggered capture re-arms it for 1200 ms,
and while it is armed a fist frame cannot start capture and `goNext`/`goPrev`
cannot change the browse index. -/
theorem catalog_shared_cooldown
    (s : FRState) (now : ℕ) (h : Hand)
    (hphase : s.phase = FittingRoomPhase.catalog)
    (hlock : ¬ now < s.postResetUntil)
    (hgate : s.requireOpenHandAfterReset = false)
    (hcd : ¬ now < s.catalogCooldownUntil) :
    (countExtendedFingers h ≠ 0 → s.swipeState.isTracking = true →
      now - s.swipeState.startTime < 500 →
      (h 9).x - s.swipeState.startX < -(15/100 : ℚ) →
      (processLandmarks s now (some h)).currentIndex
          = (s.currentIndex + 1) % CATALOG.length ∧
      (processLandmarks s now (some h)).catalogCooldownUntil = now + 800 ∧
      (processLandmarks s now (some h)).phase = FittingRoomPhase.catalog) ∧
    (countExtendedFingers h = 0 →
      (processLandmarks s now (some h)).phase = FittingRoomPhase.capturing ∧
      (processLandmarks s now (some h)).countdown = some COUNTDOWN_SECONDS ∧
      (processLandmarks s now (some h)).catalogCooldownUntil = now + 1200) ∧
    (∀ (s2 : FRState) (now2 : ℕ) (h2 : Hand),
      s2.phase = FittingRoomPhase.catalog → countExtendedFingers h2 = 0 →
      now2 < s2.catalogCooldownUntil →
      (processLandmarks s2 now2 (some h2)).phase = FittingRoomPhase.catalog ∧
      (processLandmarks s2 now2 (some h2)).countdown = s2.countdown ∧
      (processLandmarks s2 now2 (some h2)).currentIndex = s2.currentIndex) ∧
    (∀ (s2 : FRState) (now2 : ℕ), now2 < s2.catalogCooldownUntil →
      goNext s2 now2 = s2 ∧ goPrev s2 now2 = s2) := by
  refine ⟨?_, ?_, ?_, ?_⟩
  · intro hcount htrack helapsed hdelta
    rw [processLandmarks_catalog_some _ _ _ hphase]
    unfold processLandmarksCatalog
    dsimp only
    rw [if_neg hlock, if_neg (by simp [hgate]), setGateFalse_eq s hgate]
    unfold catalogGesture
    dsimp only
    rw [if_neg hcount, if_neg (by simp [htrack]), if_pos helapsed, if_pos hdelta]
    unfold goNext
    rw [if_neg (by simp [hcd, hphase])]
    simp [clearTracking, hphase]
  · intro hcount
    rw [processLandmarks_catalog_some _ _ _ hphase]
    unfold processLandmarksCatalog
    dsimp only
    rw [if_neg hlock, if_neg (by simp [hgate]), setGateFalse_eq s hgate]
    unfold catalogGesture
    dsimp only
    rw [if_pos hcount, if_neg (show ¬ now < (clearTracking s).catalogCooldownUntil from hcd)]
    unfold startCapture
    rw [if_neg (by simp [clearTracking, hphase])]
    exact ⟨rfl, rfl, rfl⟩
  · intro s2 now2 h2 hp2 hc2 hcd2
    rw [processLandmarks_catalog_some _ _ _ hp2]
    unfold processLandmarksCatalog
    dsimp only
    by_cases ht : now2 < s2.postResetUntil
    · rw [if_pos ht]
      exact ⟨hp2, rfl, rfl⟩
    · rw [if_neg ht]
      by_cases hg : s2.requireOpenHandAfterReset = true
      · rw [if_pos ⟨hg, by omega⟩]
        exact ⟨hp2, rfl, rfl⟩
      · rw [if_neg (by simp [hg]),
          setGateFalse_eq s2 (by simpa using hg)]
        unfold catalogGesture
        dsimp only
        rw [if_pos hc2, if_pos (show now2 < (clearTracking s2).catalogCooldownUntil from hcd2)]
        exact ⟨hp2, rfl, rfl⟩
  · intro s2 now2 hcd2
    constructor
    · unfold goNext
      rw [if_pos (Or.inl hcd2)]
    · unfold goPrev
      rw [if_pos (Or.inl hcd2)]

/-- Witness for C9: from a tracking catalog state at time 1200 (baseline
x = 1/2 set at time 1000), the open `swipeHand` at x = 1/4 gives
Δx = −1/4 < −0.15 within the window, fires the swipe and re-arms the shared
cooldown until 2000. -/
theorem catalog_shared_cooldown_witness :
    (processLandmarks
        { frInit with swipeState := { startX := 1/2, startTime := 1000, isTracking := true } }
        1200 (some (swipeHand (1/4)))).currentIndex
      = (({ frInit with
            swipeState := { startX := 1/2, startTime := 1000, isTracking := true } } :
          FRState).currentIndex + 1) % CATALOG.length ∧
    (processLandmarks
        { frInit with swipeState := { startX := 1/2, startTime := 1000, isTracking := true } }
        1200 (some (swipeHand (1/4)))).catalogCooldownUntil = 1200 + 800 ∧
    (processLandmarks
        { frInit with swipeState := { startX := 1/2, startTime := 1000, isTracking := true } }
        1200 (some (swipeHand (1/4)))).phase = FittingRoomPhase.catalog :=
  (catalog_shared_cooldown
      { frInit with swipeState := { startX := 1/2, startTime := 1000, isTracking := true } }
      1200 (swipeHand (1/4)) rfl (by simp [frInit]) rfl (by simp [frInit])).1
    (by rw [countExtendedFingers_swipeHand]; omega)
    rfl
    (by norm_num [frInit])
    (by rw [swipeHand_nine]; norm_num [frInit])

section ThumbsLemmas

/-- The `goNext` does not touch the thumbs-up accumulator. -/
lemma goNext_thumbs (s : FRState) (now : ℕ) :
    (goNext s now).thumbsUpBuffer = s.thumbsUpBuffer := by
  unfold goNext
  split <;> simp

/-- The `goPrev` does not touch the thumbs-up accumulator. -/
lemma goPrev_thumbs (s : FRState) (now : ℕ) :
    (goPrev s now).thumbsUpBuffer = s.thumbsUpBuffer := by
  unfold goPrev
  split <;> simp

/-- The `startCapture` does not touch the thumbs-up accumulator. -/
lemma startCapture_thumbs (s : FRState) :
    (startCapture s).thumbsUpBuffer = s.thumbsUpBuffer := by
  unfold startCapture
  split <;> simp

/-- The catalog gesture dispatch does not touch the thumbs-up accumulator. -/
lemma catalogGesture_thumbs (s : FRState) (now : ℕ) (h : Hand) (fc : ℕ) :
    (catalogGesture s now h fc).thumbsUpBuffer = s.thumbsUpBuffer := by
  unfold catalogGesture
  dsimp only
  split
  · split
    · simp [clearTracking]
    · rw [startCapture_thumbs]
      simp [clearTracking]
  · split
    · simp
    · split
      · split
        · simp [clearTracking, goNext_thumbs]
        · split
          · simp [clearTracking, goPrev_thumbs]
          · simp
      · simp

/-- The catalog branch of a frame does not touch the thumbs-up accumulator. -/
lemma processLandmarksCatalog_thumbs (s : FRState) (now : ℕ) (h : Hand) :
    (processLandmarksCatalog s now h).thumbsUpBuffer = s.thumbsUpBuffer := by
  unfold processLandmarksCatalog
  dsimp only
  split
  · rfl
  · split
    · rfl
    · rw [catalogGesture_thumbs]

/-- In every non-`results` phase, frames leave the thumbs-up accumulator
unchanged. -/
lemma processLandmarks_thumbs_other (s : FRState) (now : ℕ) (lm : Option Hand)
    (hphase : s.phase ≠ FittingRoomPhase.results) :
    (processLandmarks s now lm).thumbsUpBuffer = s.thumbsUpBuffer := by
  cases hp : s.phase with
  | catalog =>
    cases lm with
    | none => rw [processLandmarks_catalog_none s now hp]; rfl
    | some h =>
      rw [processLandmarks_catalog_some s now h hp]
      exact processLandmarksCatalog_thumbs s now h
  | capturing => rw [processLandmarks_inactive s now lm (Or.inl hp)]
  | generating => rw [processLandmarks_inactive s now lm (Or.inr hp)]
  | results => exact absurd hp hphase

/-- The `resultsFingerStep` always decays the accumulator by one, floored at 0. -/
lemma resultsFingerStep_thumbs (s : FRState) (count : ℕ) :
    (resultsFingerStep s count).thumbsUpBuffer = max (s.thumbsUpBuffer - 1) 0 := by
  unfold resultsFingerStep
  dsimp only
  split
  · split <;> rfl
  · rfl

/-- Over any event the accumulator either stays, is zeroed, is bumped
(capped at the threshold) or decays by one (floored at 0). -/
lemma frStep_thumbs (s : FRState) (e : FREvent) :
    (frStep s e).thumbsUpBuffer = s.thumbsUpBuffer ∨
    (frStep s e).thumbsUpBuffer = 0 ∨
    (frStep s e).thumbsUpBuffer = min (s.thumbsUpBuffer + 1) THUMBS_UP_FRAMES ∨
    (frStep s e).thumbsUpBuffer = max (s.thumbsUpBuffer - 1) 0 := by
  cases e with
  | frame now lm =>
    have hfr : frStep s (FREvent.frame now lm) = processLandmarks s now lm := rfl
    rw [hfr]
    by_cases hres : s.phase = FittingRoomPhase.results
    · cases lm with
      | none =>
        rw [processLandmarks_results_none s now hres]
        exact Or.inr (Or.inl rfl)
      | some h =>
        rw [processLandmarks_results_some s now h hres]
        unfold processLandmarksResults
        dsimp only
        split
        · split
          · exact Or.inr (Or.inl rfl)
          · exact Or.inr (Or.inr (Or.inl rfl))
        · exact Or.inr (Or.inr (Or.inr (resultsFingerStep_thumbs s _)))
    · exact Or.inl (processLandmarks_thumbs_other s now lm hres)
  | countdownTick =>
    cases hcd : s.countdown with
    | none => exact Or.inl (by simp [frStep, hcd])
    | some k => cases k <;> exact Or.inl (by simp [frStep, hcd])
  | captureAtZero photo =>
    cases hcd : s.countdown with
    | none => exact Or.inl (by simp [frStep, hcd])
    | some k =>
      cases k with
      | zero => exact Or.inl (by simp [frStep, hcd, startGeneration])
      | succ m => exact Or.inl (by simp [frStep, hcd])
  | progress looks =>
    by_cases hp : s.batchPending = true <;> exact Or.inl (by simp [frStep, hp])
  | batchSettled =>
    by_cases hp : s.batchPending = true <;> exact Or.inl (by simp [frStep, hp])
  | nextClick now => exact Or.inl (goNext_thumbs s now)
  | prevClick now => exact Or.inl (goPrev_thumbs s now)
  | dotClick i =>
    by_cases hc : s.phase = FittingRoomPhase.catalog <;> exact Or.inl (by simp [frStep, hc])
  | captureClick => exact Or.inl (startCapture_thumbs s)
  | backClick now =>
    by_cases hres : s.phase = FittingRoomPhase.results
    · exact Or.inr (Or.inl (by simp [frStep, hres, reset]))
    · exact Or.inl (by simp [frStep, hres])
  | thumbClick i =>
    by_cases hres : s.phase = FittingRoomPhase.results <;> exact Or.inl (by simp [frStep, hres])

end ThumbsLemmas

/-- Claim C4: The thumbs-up accumulator stays within `[0, THUMBS_UP_FRAMES]`
under every event; in `results`, a thumbs-up hand frame increments it by one
while below the firing point, a hand frame without thumbs-up decrements it by
one floored at 0, and the frame that reaches the threshold fires the
exit/reset exactly once: the machine drops to `catalog` with the accumulator
reset to 0 (and once out of `results`, frames no longer change it at all, so
no second fire can happen without a fresh hold in a later `results` phase). -/
theorem thumbsUp_accumulator (s : FRState) (e : FREvent) (now : ℕ) (h : Hand) :
    (0 ≤ s.thumbsUpBuffer ∧ s.thumbsUpBuffer ≤ THUMBS_UP_FRAMES →
      0 ≤ (frStep s e).thumbsUpBuffer ∧
        (frStep s e).thumbsUpBuffer ≤ THUMBS_UP_FRAMES) ∧
    (s.phase = FittingRoomPhase.results → isThumbsUp h = true →
      s.thumbsUpBuffer < 9 →
      (processLandmarks s now (some h)).thumbsUpBuffer = s.thumbsUpBuffer + 1 ∧
      (processLandmarks s now (some h)).phase = FittingRoomPhase.results) ∧
    (s.phase = FittingRoomPhase.results → isThumbsUp h = true →
      9 ≤ s.thumbsUpBuffer →
      (processLandmarks s now (some h)).thumbsUpBuffer = 0 ∧
      (processLandmarks s now (some h)).phase = FittingRoomPhase.catalog ∧
      (processLandmarks s now (some h)).requireOpenHandAfterReset = true) ∧
    (s.phase = FittingRoomPhase.results → isThumbsUp h = false →
      (processLandmarks s now (some h)).thumbsUpBuffer
          = max (s.thumbsUpBuffer - 1) 0 ∧
      (processLandmarks s now (some h)).phase = FittingRoomPhase.results) ∧
    (s.phase ≠ FittingRoomPhase.results →
      ∀ lm : Option Hand,
        (processLandmarks s now lm).thumbsUpBuffer = s.thumbsUpBuffer) := by
  have hT : THUMBS_UP_FRAMES = 10 := rfl
  refine ⟨?_, ?_, ?_, ?_, ?_⟩
  · intro hbounds
    rcases frStep_thumbs s e with hv | hv | hv | hv <;> rw [hv] <;> rw [hT] at hbounds ⊢ <;> omega
  · intro hres hth hlow
    rw [processLandmarks_results_some s now h hres]
    unfold processLandmarksResults
    dsimp only
    rw [if_pos hth, if_neg (by rw [hT]; omega), min_eq_left (by rw [hT]; omega)]
    exact ⟨rfl, hres⟩
  · intro hres hth hhigh
    rw [processLandmarks_results_some s now h hres]
    unfold processLandmarksResults
    dsimp only
    rw [if_pos hth, if_pos (by rw [hT]; omega)]
    exact ⟨rfl, rfl, rfl⟩
  · intro hres hth
    rw [processLandmarks_results_some s now h hres]
    unfold processLandmarksResults
    dsimp only
    rw [if_neg (by simp [hth])]
    have h1 := resultsFingerStep_thumbs s (countExtendedFingers h)
    have h2 := (resultsFingerStep_core s (countExtendedFingers h)).1
    exact ⟨h1, h2.trans hres⟩
  · intro hres lm
    exact processLandmarks_thumbs_other s now lm hres

/-- A concrete thumbs-up hand: thumb tip clearly above the thumb MCP, all
four fingers strictly folded. -/
def thumbsUpHand : Hand := fun i =>
  if i.val = 4 then { x := 1/2, y := 2/5 }
  else if i.val = 8 ∨ i.val = 12 ∨ i.val = 16 ∨ i.val = 20 then { x := 1/2, y := 9/20 }
  else if i.val = 6 ∨ i.val = 10 ∨ i.val = 14 ∨ i.val = 18 then { x := 1/2, y := 3/10 }
  else { x := 1/2, y := 1/2 }

/-- The `thumbsUpHand` is recognized by `isThumbsUp`. -/
lemma isThumbsUp_thumbsUpHand : isThumbsUp thumbsUpHand = true := by
  norm_num +decide [isThumbsUp, fingerTipIdx, fingerPipIdx, hypotSq, thumbsUpHand,
    List.all_cons]

/-- Witness for C4: in `results` with the accumulator at 9, one more
thumbs-up frame fires the exit — accumulator back to 0, phase `catalog`,
open-hand gate armed. -/
theorem thumbsUp_accumulator_witness :
    (processLandmarks
        { frInit with phase := FittingRoomPhase.results, thumbsUpBuffer := 9 }
        0 (some thumbsUpHand)).thumbsUpBuffer = 0 ∧
    (processLandmarks
        { frInit with phase := FittingRoomPhase.results, thumbsUpBuffer := 9 }
        0 (some thumbsUpHand)).phase = FittingRoomPhase.catalog ∧
    (processLandmarks
        { frInit with phase := FittingRoomPhase.results, thumbsUpBuffer := 9 }
        0 (some thumbsUpHand)).requireOpenHandAfterReset = true :=
  (thumbsUp_accumulator
      { frInit with phase := FittingRoomPhase.results, thumbsUpBuffer := 9 }
      FREvent.countdownTick 0 thumbsUpHand).2.2.1
    rfl isThumbsUp_thumbsUpHand (by norm_num)

section FingerLemmas

/-- Feeding a run of results-phase hand frames, abstracted to their computed
extended-finger counts (each frame without thumbs-up runs
`resultsFingerStep`). -/
def feedCounts (s : FRState) (cs : List ℕ) : FRState := cs.foldl resultsFingerStep s

/-- The `buffer.slice(-n)` keeps a short buffer whole. -/
lemma lastN_of_le (n : ℕ) (l : List ℕ) (hl : l.length ≤ n) : lastN n l = l := by
  unfold lastN
  rw [Nat.sub_eq_zero_of_le hl]
  exact List.drop_zero ..

/-- For a full 8-entry buffer, `slice(-7)` drops exactly the oldest entry. -/
lemma lastN_eight (l : List ℕ) (hl : l.length = 8) : lastN 7 l = l.drop 1 := by
  unfold lastN
  rw [hl]

/-- An in-range reading that does not meet the stability condition appends to
the buffer and changes neither the selection nor the phase. -/
lemma resultsFingerStep_no_fire (s : FRState) (count : ℕ)
    (hin : 1 ≤ count ∧ count ≤ 4)
    (hnof : ¬ (FINGER_STABLE_FRAMES ≤
        (lastN (FINGER_STABLE_FRAMES - 1) s.fingerBuffer ++ [count]).length ∧
      ((lastN (FINGER_STABLE_FRAMES - 1) s.fingerBuffer ++ [count]).all
          (fun c => c == count)) = true ∧
      count - 1 ≠ s.selectedLookIndex)) :
    (resultsFingerStep s count).fingerBuffer
        = lastN (FINGER_STABLE_FRAMES - 1) s.fingerBuffer ++ [count] ∧
    (resultsFingerStep s count).selectedLookIndex = s.selectedLookIndex ∧
    (resultsFingerStep s count).phase = s.phase := by
  unfold resultsFingerStep
  dsimp only
  rw [if_pos hin, if_neg hnof]
  exact ⟨rfl, rfl, rfl⟩

/-- An in-range reading that meets the stability condition selects look
`count - 1`. -/
lemma resultsFingerStep_fire (s : FRState) (count : ℕ)
    (hin : 1 ≤ count ∧ count ≤ 4)
    (hf : FINGER_STABLE_FRAMES ≤
        (lastN (FINGER_STABLE_FRAMES - 1) s.fingerBuffer ++ [count]).length ∧
      ((lastN (FINGER_STABLE_FRAMES - 1) s.fingerBuffer ++ [count]).all
          (fun c => c == count)) = true ∧
      count - 1 ≠ s.selectedLookIndex) :
    (resultsFingerStep s count).fingerBuffer
        = lastN (FINGER_STABLE_FRAMES - 1) s.fingerBuffer ++ [count] ∧
    (resultsFingerStep s count).selectedLookIndex = count - 1 ∧
    (resultsFingerStep s count).phase = s.phase := by
  unfold resultsFingerStep
  dsimp only
  rw [if_pos hin, if_pos hf]
  exact ⟨rfl, rfl, rfl⟩

/-- Feeding at most 7 identical in-range readings onto an empty buffer just
fills the buffer: no selection change is possible. -/
lemma feed_replicate_stable (s : FRState) (k : ℕ) (hk1 : 1 ≤ k) (hk4 : k ≤ 4)
    (hbuf : s.fingerBuffer = []) :
    ∀ n, n ≤ 7 →
      (feedCounts s (List.replicate n k)).fingerBuffer = List.replicate n k ∧
      (feedCounts s (List.replicate n k)).selectedLookIndex = s.selectedLookIndex ∧
      (feedCounts s (List.replicate n k)).phase = s.phase := by
  intro n
  induction n with
  | zero => intro _; exact ⟨hbuf, rfl, rfl⟩
  | succ m ih =>
    intro hm
    obtain ⟨ihbuf, ihsel, ihphase⟩ := ih (by omega)
    have hsplit : feedCounts s (List.replicate (m + 1) k)
        = resultsFingerStep (feedCounts s (List.replicate m k)) k := by
      rw [List.replicate_succ', feedCounts, List.foldl_append]
      rfl
    have hlast : lastN (FINGER_STABLE_FRAMES - 1)
        (feedCounts s (List.replicate m k)).fingerBuffer = List.replicate m k := by
      rw [ihbuf]
      exact lastN_of_le 7 _ (by simp; omega)
    have hnof : ¬ (FINGER_STABLE_FRAMES ≤
        (lastN (FINGER_STABLE_FRAMES - 1)
          (feedCounts s (List.replicate m k)).fingerBuffer ++ [k]).length ∧
      ((lastN (FINGER_STABLE_FRAMES - 1)
          (feedCounts s (List.replicate m k)).fingerBuffer ++ [k]).all
          (fun c => c == k)) = true ∧
      k - 1 ≠ (feedCounts s (List.replicate m k)).selectedLookIndex) := by
      intro hcon
      have hlen := hcon.1
      rw [hlast] at hlen
      simp [FINGER_STABLE_FRAMES] at hlen
      omega
    obtain ⟨b, sel, ph⟩ :=
      resultsFingerStep_no_fire (feedCounts s (List.replicate m k)) k ⟨hk1, hk4⟩ hnof
    rw [hsplit]
    refine ⟨?_, sel.trans ihsel, ph.trans ihphase⟩
    rw [b, hlast, ← List.replicate_succ']

/-- Every entry of `replicate n j ++ [j]` equals `j`. -/
lemma all_replicate_append (n j : ℕ) :
    ((List.replicate n j ++ [j]).all (fun c => c == j)) = true := by
  rw [List.all_eq_true]
  intro c hc
  rcases List.mem_append.mp hc with hmem | hmem
  · rw [beq_iff_eq]
    exact (List.eq_of_mem_replicate hmem)
  · rw [beq_iff_eq]
    simpa using hmem

/-- A buffer holding `8 - m` stale readings `k` followed by `m` fresh
readings `j ≠ k` needs exactly `8 - m` further `j` readings to fire: the
stability run for `j` effectively restarted when the reading changed. -/
lemma feed_j_run (k j : ℕ) (hj1 : 1 ≤ j) (hj4 : j ≤ 4) (hkj : k ≠ j) :
    ∀ (r : ℕ) (s : FRState) (m : ℕ), 1 ≤ m → m ≤ 7 → m + r = 8 →
      s.fingerBuffer = List.replicate (8 - m) k ++ List.replicate m j →
      j - 1 ≠ s.selectedLookIndex →
      (feedCounts s (List.replicate r j)).selectedLookIndex = j - 1 ∧
      (feedCounts s (List.replicate r j)).phase = s.phase := by
  intro r
  induction r with
  | zero => intro s m _ hm7 hm8 _ _; omega
  | succ r ih =>
    intro s m hm1 hm7 hm8 hbuf hsel
    have hfeed : feedCounts s (List.replicate (r + 1) j)
        = feedCounts (resultsFingerStep s j) (List.replicate r j) := by
      rw [List.replicate_succ]
      rfl
    have hbuflen : s.fingerBuffer.length = 8 := by
      rw [hbuf]
      simp
      omega
    have h8m : 8 - m = (7 - m) + 1 := by omega
    have hdrop : s.fingerBuffer.drop 1
        = List.replicate (7 - m) k ++ List.replicate m j := by
      rw [hbuf, h8m, List.replicate_succ, List.cons_append, List.drop_succ_cons,
        List.drop_zero]
    have hnew : lastN (FINGER_STABLE_FRAMES - 1) s.fingerBuffer ++ [j]
        = List.replicate (7 - m) k ++ List.replicate (m + 1) j := by
      show lastN 7 s.fingerBuffer ++ [j] = _
      rw [lastN_eight _ hbuflen, hdrop, List.append_assoc, ← List.replicate_succ']
    by_cases hm : m = 7
    · subst hm
      have hfire := resultsFingerStep_fire s j ⟨hj1, hj4⟩ (by
        refine ⟨?_, ?_, hsel⟩
        · rw [hnew]
          simp [FINGER_STABLE_FRAMES]
        · rw [hnew]
          rw [List.all_eq_true]
          intro c hc
          rw [beq_iff_eq]
          exact List.eq_of_mem_replicate (show c ∈ List.replicate 8 j by simpa using hc))
      have hr0 : r = 0 := by omega
      subst hr0
      rw [hfeed]
      exact ⟨hfire.2.1, hfire.2.2⟩
    · have hnof := resultsFingerStep_no_fire s j ⟨hj1, hj4⟩ (by
        intro hcon
        have hall := hcon.2.1
        rw [hnew] at hall
        have := List.all_eq_true.mp hall k (by
          apply List.mem_append.mpr
          left
          exact List.mem_replicate.mpr ⟨by omega, rfl⟩)
        rw [beq_iff_eq] at this
        exact hkj this)
      rw [hfeed]
      obtain ⟨hb, hs, hp⟩ := hnof
      have h77 : 8 - (m + 1) = 7 - m := by omega
      have hnext := ih (resultsFingerStep s j) (m + 1) (by omega) (by omega) (by omega)
        (by rw [hb, hnew, h77])
        (by rw [hs]; exact hsel)
      exact ⟨hnext.1, hnext.2.trans hp⟩

end FingerLemmas

/-- Claim C5: In `results`, a selection change to `k` (selected-look-index
`k - 1`) happens iff the extended-finger count has been the identical
in-range value `k` for `FINGER_STABLE_FRAMES = 8` consecutive frames and
`k - 1` differs from the current selection: 7 identical readings produce no
change, the 8th fires; 7 readings of `k` followed by one `j ≠ k` fire
nothing and leave the stability run for `j` at length 1, so 8 fresh `j`
readings are needed before `j` is selected.  The hand frames factor through
`resultsFingerStep` on the computed count, and a single step changes the
selection exactly when the freshly-appended buffer is full and constant. -/
theorem finger_stability_selection (s : FRState) (k j : ℕ)
    (hphase : s.phase = FittingRoomPhase.results)
    (hbuf : s.fingerBuffer = [])
    (hk1 : 1 ≤ k) (hk4 : k ≤ 4) (hj1 : 1 ≤ j) (hj4 : j ≤ 4) (hkj : j ≠ k)
    (hselk : k - 1 ≠ s.selectedLookIndex)
    (hselj : j - 1 ≠ s.selectedLookIndex) :
    (∀ (now : ℕ) (h : Hand), isThumbsUp h = false →
      processLandmarks s now (some h)
        = resultsFingerStep s (countExtendedFingers h)) ∧
    ((feedCounts s (List.replicate 7 k)).selectedLookIndex = s.selectedLookIndex ∧
      (feedCounts s (List.replicate 7 k)).fingerBuffer = List.replicate 7 k) ∧
    (feedCounts s (List.replicate 8 k)).selectedLookIndex = k - 1 ∧
    ((feedCounts s (List.replicate 7 k ++ [j])).selectedLookIndex
        = s.selectedLookIndex ∧
      (feedCounts s (List.replicate 7 k ++ [j])).fingerBuffer
        = List.replicate 7 k ++ [j]) ∧
    (feedCounts s (List.replicate 7 k ++ List.replicate 8 j)).selectedLookIndex
        = j - 1 ∧
    (∀ (t : FRState) (c : ℕ), 1 ≤ c → c ≤ 4 →
      (resultsFingerStep t c).selectedLookIndex =
        if FINGER_STABLE_FRAMES ≤
              (lastN (FINGER_STABLE_FRAMES - 1) t.fingerBuffer ++ [c]).length ∧
            ((lastN (FINGER_STABLE_FRAMES - 1) t.fingerBuffer ++ [c]).all
              (fun x => x == c)) = true ∧
            c - 1 ≠ t.selectedLookIndex
        then c - 1 else t.selectedLookIndex) := by
  obtain ⟨t7buf, t7sel, t7phase⟩ := feed_replicate_stable s k hk1 hk4 hbuf 7 (le_refl 7)
  have hlast7 : lastN (FINGER_STABLE_FRAMES - 1)
      (feedCounts s (List.replicate 7 k)).fingerBuffer = List.replicate 7 k := by
    rw [t7buf]
    exact lastN_of_le 7 _ (by simp)
  refine ⟨?_, ⟨t7sel, t7buf⟩, ?_, ?_, ?_, ?_⟩
  · intro now h hth
    rw [processLandmarks_results_some _ _ _ hphase]
    unfold processLandmarksResults
    dsimp only
    rw [if_neg (by simp [hth])]
  · have hsplit8 : feedCounts s (List.replicate 8 k)
        = resultsFingerStep (feedCounts s (List.replicate 7 k)) k := by
      rw [show (8 : ℕ) = 7 + 1 from rfl, List.replicate_succ', feedCounts,
        List.foldl_append]
      rfl
    have hfirek := resultsFingerStep_fire (feedCounts s (List.replicate 7 k)) k
      ⟨hk1, hk4⟩ (by
        refine ⟨?_, ?_, ?_⟩
        · rw [hlast7]
          simp [FINGER_STABLE_FRAMES]
        · rw [hlast7]
          exact all_replicate_append 7 k
        · rw [t7sel]
          exact hselk)
    rw [hsplit8]
    exact hfirek.2.1
  · have hsplitj : feedCounts s (List.replicate 7 k ++ [j])
        = resultsFingerStep (feedCounts s (List.replicate 7 k)) j := by
      rw [feedCounts, List.foldl_append]
      rfl
    have hnofj := resultsFingerStep_no_fire (feedCounts s (List.replicate 7 k)) j
      ⟨hj1, hj4⟩ (by
        intro hcon
        have hall := hcon.2.1
        rw [hlast7] at hall
        have := List.all_eq_true.mp hall k
          (List.mem_append.mpr (Or.inl (List.mem_replicate.mpr ⟨by omega, rfl⟩)))
        rw [beq_iff_eq] at this
        exact hkj this.symm)
    rw [hsplitj]
    refine ⟨hnofj.2.1.trans t7sel, ?_⟩
    rw [hnofj.1, hlast7]
  · have hnofj := resultsFingerStep_no_fire (feedCounts s (List.replicate 7 k)) j
      ⟨hj1, hj4⟩ (by
        intro hcon
        have hall := hcon.2.1
        rw [hlast7] at hall
        have := List.all_eq_true.mp hall k
          (List.mem_append.mpr (Or.inl (List.mem_replicate.mpr ⟨by omega, rfl⟩)))
        rw [beq_iff_eq] at this
        exact hkj this.symm)
    have hsplitjs : feedCounts s (List.replicate 7 k ++ List.replicate 8 j)
        = feedCounts (resultsFingerStep (feedCounts s (List.replicate 7 k)) j)
            (List.replicate 7 j) := by
      rw [feedCounts, List.foldl_append]
      rfl
    have hrun := feed_j_run k j hj1 hj4 (fun he => hkj he.symm) 7
      (resultsFingerStep (feedCounts s (List.replicate 7 k)) j) 1
      (by omega) (by omega) (by omega)
      (by rw [hnofj.1, hlast7]; rfl)
      (by rw [hnofj.2.1, t7sel]; exact hselj)
    rw [hsplitjs]
    exact hrun.1
  · intro t c hc1 hc4
    unfold resultsFingerStep
    dsimp only
    rw [if_pos ⟨hc1, hc4⟩]
    split_ifs with hcond
    · rfl
    · rfl

/-- Witness for C5 with `k = 2`, `j = 3` from a fresh `results` state:
8 consecutive readings of 2 select look index 1. -/
theorem finger_stability_selection_witness :
    (feedCounts { frInit with phase := FittingRoomPhase.results }
        (List.replicate 8 2)).selectedLookIndex = 2 - 1 :=
  (finger_stability_selection { frInit with phase := FittingRoomPhase.results } 2 3
      rfl rfl (by decide) (by decide) (by decide) (by decide) (by decide)
      (by decide) (by decide)).2.2.1

/-- The tip/PIP index pairs as a concrete list. -/
lemma fingerPairs_eq :
    fingerTipIdx.zip fingerPipIdx
      = [((8 : Fin 21), (6 : Fin 21)), (12, 10), (16, 14), (20, 18)] := rfl

/-- Claim C8 counterexample: On the degenerate hand whose 21 landmarks all
coincide, every tip distance equals its PIP distance: the fitting-room
detector (`countExtendedFingers == 0`) reports a fist, while the navigation
detector (all four fingers strictly folded) does not — the two predicates
differ on this input, so they do not decide the same predicate on every
21-point landmark set. -/
theorem fist_detectors_disagree_counterexample :
    isFistGesture zeroHand = true ∧ isFist zeroHand = false :=
  ⟨by rw [isFistGesture, countExtendedFingers_zeroHand]; rfl,
    by norm_num [isFist, isFingerFolded, hypotSq, zeroHand]⟩

/-- Claim C8 amended: `isFistGesture` holds iff `extendedFingerCount = 0`,
where a finger is extended iff its tip's distance to the wrist strictly
exceeds its PIP's; and on every hand in which no finger has tip distance
exactly equal to PIP distance, the navigation detector `isFist` (all four
fingers strictly folded) agrees with `isFistGesture`.  (On ties the former is
false while the latter is true, as the counterexample shows.) -/
theorem fist_iff_no_extended (h : Hand) :
    (isFistGesture h = true ↔ countExtendedFingers h = 0) ∧
    ((∀ p ∈ fingerTipIdx.zip fingerPipIdx,
        hypotSq (h p.1) (h 0) ≠ hypotSq (h p.2) (h 0)) →
      isFist h = isFistGesture h) := by
  constructor
  · unfold isFistGesture
    exact beq_iff_eq ..
  · intro hties
    have t1 := hties (8, 6) (by rw [fingerPairs_eq]; simp)
    have t2 := hties (12, 10) (by rw [fingerPairs_eq]; simp)
    have t3 := hties (16, 14) (by rw [fingerPairs_eq]; simp)
    have t4 := hties (20, 18) (by rw [fingerPairs_eq]; simp)
    rcases t1.lt_or_lt with h1 | h1 <;> rcases t2.lt_or_lt with h2 | h2 <;>
      rcases t3.lt_or_lt with h3 | h3 <;> rcases t4.lt_or_lt with h4 | h4 <;>
      simp [isFist, isFingerFolded, isFistGesture, countExtendedFingers,
        fingerPairs_eq, List.countP_cons, List.countP_nil, h1, h2, h3, h4,
        lt_asymm h1, lt_asymm h2, lt_asymm h3, lt_asymm h4]

/-- Witness for the amended C8 on a tie-free hand (all four fingers strictly
folded): both detectors agree and report a fist. -/
theorem fist_iff_no_extended_witness :
    (isFistGesture thumbsUpHand = true ↔ countExtendedFingers thumbsUpHand = 0) ∧
    isFist thumbsUpHand = isFistGesture thumbsUpHand :=
  ⟨(fist_iff_no_extended thumbsUpHand).1,
    (fist_iff_no_extended thumbsUpHand).2 (by
      intro p hp
      rw [fingerPairs_eq] at hp
      have hp4 : p = ((8 : Fin 21), (6 : Fin 21)) ∨ p = (12, 10) ∨
          p = (16, 14) ∨ p = (20, 18) := by simpa using hp
      rcases hp4 with rfl | rfl | rfl | rfl <;>
        norm_num +decide [hypotSq, thumbsUpHand])⟩

/-- The `swipeHand` is not pinching (thumb tip and index tip far apart). -/
lemma isPinching_swipeHand (x : ℚ) : isPinching (swipeHand x) = false := by
  norm_num +decide [isPinching, hypotSq, swipeHand]

/-- The `swipeHand` is not a fist for the navigation detector. -/
lemma isFist_swipeHand (x : ℚ) : isFist (swipeHand x) = false := by
  norm_num +decide [isFist, isFingerFolded, hypotSq, swipeHand]

/-- Characterization of a tracked catalog frame that is past the lockout and
the open-hand gate and is not a fist: exactly the windowed swipe detector of
the source, including the restart-at-current-position branch on expiry. -/
lemma catalog_swipe_step (s : FRState) (now : ℕ) (h : Hand)
    (hphase : s.phase = FittingRoomPhase.catalog)
    (hlock : ¬ now < s.postResetUntil)
    (hgate : s.requireOpenHandAfterReset = false)
    (hcount : countExtendedFingers h ≠ 0)
    (htrack : s.swipeState.isTracking = true) :
    processLandmarks s now (some h) =
      if now - s.swipeState.startTime < 500 then
        if (h 9).x - s.swipeState.startX < -(15/100 : ℚ) then
          clearTracking (goNext s now)
        else if (h 9).x - s.swipeState.startX > (15/100 : ℚ) then
          clearTracking (goPrev s now)
        else s
      else
        { s with swipeState :=
            { startX := (h 9).x, startTime := now, isTracking := true } } := by
  rw [processLandmarks_catalog_some _ _ _ hphase]
  unfold processLandmarksCatalog
  dsimp only
  rw [if_neg hlock, if_neg (by simp [hgate]), setGateFalse_eq s hgate]
  unfold catalogGesture
  dsimp only
  rw [if_neg hcount, if_neg (by simp [htrack])]

/-- Characterization of a tracked navigation frame that is neither a pinch
nor a fist: the same windowed swipe detector, except that on expiry it merely
stops tracking. -/
lemma nav_swipe_step (t : NavState) (now : ℕ) (h : Hand)
    (hp : isPinching h = false) (hf : isFist h = false)
    (htrack : t.gestureState.isTracking = true) :
    navProcessFrame t now (some h) =
      if now - t.gestureState.startTime < 500 then
        if (h 9).x - t.gestureState.startX < -(15/100 : ℚ) then
          navClearTracking (nextWidget t now)
        else if (h 9).x - t.gestureState.startX > (15/100 : ℚ) then
          navClearTracking (prevWidget t now)
        else t
      else navClearTracking t := by
  unfold navProcessFrame
  dsimp only
  rw [if_neg (by simp [hp]), if_neg (by simp [hf]), if_neg (by simp [htrack])]

/-- The navigation tracker state used by the C3 counterexample: tracking
since time 0 with baseline x = 0, no cooldown, away from the fitting room. -/
def navCexState : NavState :=
  { activeWidget := 0
    showCamera := false
    isPlaying := false
    cooldownUntil := 0
    gestureState := { startX := 0, startTime := 0, isTracking := true } }

/-- Claim C3 counterexample: On the navigation tracker, a displacement of 0.16
reached at 501 ms does not fire — but the tracking window does *not* restart
from the current position: the tracker stops tracking altogether
(`isTracking = false`, baseline untouched), and a fresh window only starts on
the next hand frame at that frame's position. -/
theorem nav_swipe_expiry_counterexample :
    (navProcessFrame navCexState 501 (some (swipeHand (16/100)))).gestureState.isTracking
        = false ∧
    (navProcessFrame navCexState 501 (some (swipeHand (16/100)))).gestureState.startX
        = 0 ∧
    (navProcessFrame navCexState 501 (some (swipeHand (16/100)))).activeWidget = 0 := by
  rw [nav_swipe_step navCexState 501 (swipeHand (16/100))
    (isPinching_swipeHand _) (isFist_swipeHand _) rfl]
  rw [if_neg (by norm_num [navCexState])]
  exact ⟨rfl, rfl, rfl⟩

/-- Claim C3 amended: For both trackers a swipe fires iff the x-displacement
of landmark 9 from the tracking baseline strictly exceeds 0.15 in magnitude
while strictly less than 500 ms have elapsed since the baseline was set; a
displacement of 0.149 (or any magnitude up to 0.15) within the window fires
nothing and changes nothing, and a displacement reached at or after 500 ms
fires nothing.  On expiry the fitting-room catalog tracker restarts the
window from the current position, while the navigation tracker instead stops
tracking (baseline dropped), restarting only on the next hand frame at that
frame's position. -/
theorem swipe_window_fires_iff (s : FRState) (now : ℕ) (h : Hand)
    (hphase : s.phase = FittingRoomPhase.catalog)
    (hlock : ¬ now < s.postResetUntil)
    (hgate : s.requireOpenHandAfterReset = false)
    (hcount : countExtendedFingers h ≠ 0)
    (htrack : s.swipeState.isTracking = true)
    (hcd : ¬ now < s.catalogCooldownUntil) :
    (now - s.swipeState.startTime < 500 →
      (h 9).x - s.swipeState.startX < -(15/100 : ℚ) →
      (processLandmarks s now (some h)).currentIndex
          = (s.currentIndex + 1) % CATALOG.length ∧
      (processLandmarks s now (some h)).swipeState.isTracking = false) ∧
    (now - s.swipeState.startTime < 500 →
      (h 9).x - s.swipeState.startX > (15/100 : ℚ) →
      (processLandmarks s now (some h)).currentIndex
          = (s.currentIndex + CATALOG.length - 1) % CATALOG.length ∧
      (processLandmarks s now (some h)).swipeState.isTracking = false) ∧
    (now - s.swipeState.startTime < 500 →
      -(15/100 : ℚ) ≤ (h 9).x - s.swipeState.startX →
      (h 9).x - s.swipeState.startX ≤ (15/100 : ℚ) →
      processLandmarks s now (some h) = s) ∧
    (¬ now - s.swipeState.startTime < 500 →
      processLandmarks s now (some h)
        = { s with swipeState :=
            { startX := (h 9).x, startTime := now, isTracking := true } }) ∧
    (∀ (t : NavState) (h2 : Hand),
      isPinching h2 = false → isFist h2 = false →
      t.gestureState.isTracking = true → ¬ now < t.cooldownUntil →
      (now - t.gestureState.startTime < 500 →
        (h2 9).x - t.gestureState.startX < -(15/100 : ℚ) →
        (navProcessFrame t now (some h2)).activeWidget
            = (t.activeWidget + 1) % WIDGET_COUNT ∧
        (navProcessFrame t now (some h2)).gestureState.isTracking = false) ∧
      (now - t.gestureState.startTime < 500 →
        -(15/100 : ℚ) ≤ (h2 9).x - t.gestureState.startX →
        (h2 9).x - t.gestureState.startX ≤ (15/100 : ℚ) →
        navProcessFrame t now (some h2) = t) ∧
      (¬ now - t.gestureState.startTime < 500 →
        navProcessFrame t now (some h2) = navClearTracking t)) := by
  have hstep := catalog_swipe_step s now h hphase hlock hgate hcount htrack
  refine ⟨?_, ?_, ?_, ?_, ?_⟩
  · intro hel hdx
    rw [hstep, if_pos hel, if_pos hdx]
    unfold goNext
    rw [if_neg (by simp [hcd, hphase])]
    exact ⟨rfl, rfl⟩
  · intro hel hdx
    rw [hstep, if_pos hel,
      if_neg (by exact not_lt.mpr (le_of_lt (lt_trans (by norm_num) hdx))), if_pos hdx]
    unfold goPrev
    rw [if_neg (by simp [hcd, hphase])]
    exact ⟨rfl, rfl⟩
  · intro hel hge hle
    rw [hstep, if_pos hel, if_neg (by exact not_lt.mpr hge), if_neg (by exact not_lt.mpr hle)]
  · intro hel
    rw [hstep, if_neg hel]
  · intro t h2 hp hf htr2 hcdn
    have hstep2 := nav_swipe_step t now h2 hp hf htr2
    refine ⟨?_, ?_, ?_⟩
    · intro hel hdx
      rw [hstep2, if_pos hel, if_pos hdx]
      unfold nextWidget
      rw [if_neg hcdn]
      exact ⟨rfl, rfl⟩
    · intro hel hge hle
      rw [hstep2, if_pos hel, if_neg (by exact not_lt.mpr hge),
        if_neg (by exact not_lt.mpr hle)]
    · intro hel
      rw [hstep2, if_neg hel]

/-- Witness for the amended C3: a tracked catalog frame at 501 ms with
displacement 0.16 fires nothing and restarts the window at the current
position. -/
theorem swipe_window_fires_iff_witness :
    processLandmarks
        { frInit with swipeState := { startX := 0, startTime := 0, isTracking := true } }
        501 (some (swipeHand (16/100)))
      = { ({ frInit with
            swipeState := { startX := 0, startTime := 0, isTracking := true } } : FRState)
          with swipeState :=
            { startX := (swipeHand (16/100) 9).x, startTime := 501, isTracking := true } } :=
  (swipe_window_fires_iff
      { frInit with swipeState := { startX := 0, startTime := 0, isTracking := true } }
      501 (swipeHand (16/100)) rfl (by simp [frInit]) rfl
      (by rw [countExtendedFingers_swipeHand]; omega) rfl
      (by simp [frInit])).2.2.2.1 (by norm_num)

/-- Claim C7 counterexample: There is no epoch/capture-identifier comparison in
the code: a batch completion's progressive write replaces the shared result
set unconditionally.  At a concrete generating state holding the four
loading slots, a progress write carrying a different list is applied, not
discarded. -/
theorem progress_write_not_discarded :
    (frStep
        { frInit with
          phase := FittingRoomPhase.generating
          generatedLooks := initLooks SCENES
          batchPending := true }
        (FREvent.progress [defaultLook])).generatedLooks = [defaultLook] ∧
    [defaultLook] ≠ initLooks SCENES := by
  constructor
  · rfl
  · intro hcon
    have := congrArg List.length hcon
    rw [initLooks_length] at this
    simp [SCENES] at this

/-- Claim C7 amended: The code performs no epoch comparison — every batch
write lands unconditionally — but a stale write can never occur, because
batches never overlap: a new generation batch can only start (the
countdown-zero capture actually changing state) while no batch is pending,
a pending batch pins the machine in `generating`, and the completion and
progress callbacks of a batch exist only while that batch is pending (a
progress event with no batch pending is a no-op). -/
theorem no_stale_batch_overlap (s : FRState) (hs : FRReachable s) (photo : String) :
    (frStep s (FREvent.captureAtZero photo) ≠ s → s.batchPending = false) ∧
    (s.batchPending = true → s.phase = FittingRoomPhase.generating) ∧
    (∀ looks, s.batchPending = false → frStep s (FREvent.progress looks) = s) := by
  obtain ⟨hc, hb⟩ := frReachable_inv hs
  refine ⟨?_, hb, ?_⟩
  · intro hne
    by_cases hbp : s.batchPending = true
    · exfalso
      have hgen := hb hbp
      cases hcd : s.countdown with
      | none => exact hne (by simp [frStep, hcd])
      | some k =>
        have := hc (by simp [hcd])
        rw [hgen] at this
        cases this
    · exact Bool.not_eq_true _ ▸ (by simpa using hbp)
  · intro looks hbp
    simp [frStep, hbp]

/-- Witness for the amended C7 at the mount state: no batch is pending, so a
capture there is indeed a fresh batch and a progress event is a no-op. -/
theorem no_stale_batch_overlap_witness :
    (frStep frInit (FREvent.captureAtZero "data:p") ≠ frInit →
      frInit.batchPending = false) ∧
    (frInit.batchPending = true → frInit.phase = FittingRoomPhase.generating) ∧
    (∀ looks, frInit.batchPending = false →
      frStep frInit (FREvent.progress looks) = frInit) :=
  no_stale_batch_overlap frInit FRReachable.init "data:p"
